import Mathlib

/-!
Verification development for `django-cloud-deploy`: a shallow embedding of
`django_cloud_deploy/cli/prompt_manager.py` (the prompt sequencing and
validation engine) and of the flag-validation phase of
`django_cloud_deploy/cli/update.py`.

Modelling conventions:
* Console I/O and the external cloud clients are represented by a `W`
  (world) record: the pending `console.ask` input lines, the pending
  `console.getpass` input lines, the stream of successive responses of
  `BillingClient.list_billing_accounts`, and pure oracles for the other
  collaborator calls.  Spec section 7 declares external-service failures
  out of scope, so the oracles are total functions.
* Every run returns an `Out`: `ok` (normal return, carrying the result,
  the updated world and the emitted console/event trace), `crash`
  (an uncaught Python exception such as `IndexError`, `KeyError` or a
  failed `assert` - never a `ValueError`, which the code always handles),
  or `blocked` (an input stream was exhausted: the Python process would
  sit waiting forever; this is the model artifact for "still waiting").
* Python strings are Lean `String`s (`len` = `String.length`); the
  validators that Python implements over Unicode classes are modelled
  over their ASCII behaviour, which is what every value in this CLI is.
* Python's `dict` is insertion ordered; the answer mapping is modelled
  as an association list with in-place update (`setArg`).
-/

/-- `workflow.ProjectCreationMode`.  Modelled from the spec: the enum lives
in the `django_cloud_deploy.workflow` package, which is not part of the
sources here; spec section 3 gives its members `MUST_EXIST` and
`CREATE_NEW`. -/
inductive ProjectCreationMode where
  | MUST_EXIST
  | CREATE_NEW
deriving DecidableEq

/-- A value stored in the answer mapping: strings, the opaque credential
handle returned by the auth client, the project-creation-mode enum, or a
boolean flag (`use_existing_project`). -/
inductive Value where
  | str (s : String)
  | creds (n : Nat)
  | mode (m : ProjectCreationMode)
  | bool (b : Bool)
deriving DecidableEq

/-- Python `str(value)` as used by `'{} {}: {}'.format(step, param, value)`.
For the plain strings of this CLI it is the string itself; the renderings
of the opaque handle and the enum stand in for their Python `repr`. -/
def Value.render : Value → String
  | Value.str s => s
  | Value.creds n => "<credentials " ++ toString n ++ ">"
  | Value.mode ProjectCreationMode.MUST_EXIST => "ProjectCreationMode.MUST_EXIST"
  | Value.mode ProjectCreationMode.CREATE_NEW => "ProjectCreationMode.CREATE_NEW"
  | Value.bool true => "True"
  | Value.bool false => "False"

/-- Python truthiness of a mapping value (`if args.get('use_existing_project', False)`). -/
def Value.truthy : Value → Bool
  | Value.str s => s ≠ ""
  | Value.creds _ => true
  | Value.mode _ => true
  | Value.bool b => b

/-- Truthiness of `args.get(key, None)`: `None` is falsy. -/
def optValueTruthy : Option Value → Bool
  | none => false
  | some v => v.truthy

/-- The answer mapping (`args` / `new_args`): a Python dict keyed by
parameter name, modelled with insertion order kept. -/
abbrev Args := List (String × Value)

/-- `args.get(k, None)`. -/
def lookupArg (k : String) : Args → Option Value
  | [] => none
  | (k1, v) :: rest => if k1 = k then some v else lookupArg k rest

/-- `new_args[k] = v` on a dict: replaces in place when the key exists,
appends otherwise. -/
def setArg (k : String) (v : Value) : Args → Args
  | [] => [(k, v)]
  | (k1, v1) :: rest => if k1 = k then (k, v) :: rest else (k1, v1) :: setArg k v rest

/-- One entry of `BillingClient.list_billing_accounts()`. -/
structure BAccount where
  name : String
  displayName : String
deriving DecidableEq

/-- Result of `BillingClient.get_billing_account(project_id)`: the
`billingEnabled` field and the optional `billingAccountName` field
(`dict.get` returns `None` when the key is absent). -/
structure BillingInfo where
  billingEnabled : Bool
  billingAccountName : Option String
deriving DecidableEq

/-- Observable events of a run: the four console operations of the `io.IO`
collaborator, the browser launch, and the 2-second poll sleep. -/
inductive Ev where
  | ask (question : String)
  | tell (message : String)
  | err (message : String)
  | getpass (question : String)
  | browse (url : String)
  | sleep
deriving DecidableEq

/-- The external world: pending console input, the response stream of the
billing-account listing call, and pure oracles for the remaining
collaborator calls (`auth`, `project`, `billing`, `os.path`, `random`). -/
structure W where
  askInputs : List String
  passInputs : List String
  billingLists : List (List BAccount)
  activeAccount : Option String
  billingOf : String → BillingInfo
  projectNameOf : String → String
  projectExists : String → Bool
  pathExists : String → Bool
  homeDir : String
  randNat : Nat
  newCreds : Nat
  defaultCreds : Nat

/-- Outcome of running a piece of the CLI: normal return, uncaught Python
exception, or blocked waiting on an exhausted input stream.  Every
constructor carries the event trace emitted up to that point. -/
inductive Out (α : Type) where
  | ok (a : α) (w : W) (t : List Ev)
  | crash (t : List Ev)
  | blocked (t : List Ev)

/-- Prepend already-emitted events to an outcome's trace. -/
def Out.prepend (t0 : List Ev) : Out α → Out α
  | Out.ok a w t => Out.ok a w (t0 ++ t)
  | Out.crash t => Out.crash (t0 ++ t)
  | Out.blocked t => Out.blocked (t0 ++ t)

/-- Sequencing: run `o`, and on normal return continue with `f`. -/
def Out.seq (o : Out α) (f : α → W → Out β) : Out β :=
  match o with
  | Out.ok a w t => (f a w).prepend t
  | Out.crash t => Out.crash t
  | Out.blocked t => Out.blocked t

theorem Out.seq_eq_ok {α β : Type} {o : Out α} {f : α → W → Out β} {b : β} {wf : W}
    {t : List Ev} :
    Out.seq o f = Out.ok b wf t ↔
      ∃ a w1 t1 t2, o = Out.ok a w1 t1 ∧ f a w1 = Out.ok b wf t2 ∧ t = t1 ++ t2 := by
  cases o with
  | ok a w1 t1 =>
    constructor
    · intro h
      cases hf : f a w1 with
      | ok b2 w2 t2 =>
        rw [Out.seq, hf] at h
        simp only [Out.prepend] at h
        injection h with h1 h2 h3
        exact ⟨a, w1, t1, t2, rfl, by rw [hf, h1, h2], h3.symm⟩
      | crash t2 => rw [Out.seq, hf] at h; simp [Out.prepend] at h
      | blocked t2 => rw [Out.seq, hf] at h; simp [Out.prepend] at h
    · rintro ⟨a2, w2, t2, t3, h1, h2, h3⟩
      injection h1 with e1 e2 e3
      subst e1; subst e2; subst e3
      rw [Out.seq, h2]
      simp [Out.prepend, h3]
  | crash t1 =>
    constructor
    · intro h; rw [Out.seq] at h; exact absurd h (by simp)
    · rintro ⟨a2, w2, t2, t3, h1, _, _⟩; exact absurd h1 (by simp)
  | blocked t1 =>
    constructor
    · intro h; rw [Out.seq] at h; exact absurd h (by simp)
    · rintro ⟨a2, w2, t2, t3, h1, _, _⟩; exact absurd h1 (by simp)

/-- `console.ask(question)`: display the question, consume one input line. -/
def consoleAsk (q : String) (w : W) : Out String :=
  match w.askInputs with
  | [] => Out.blocked [Ev.ask q]
  | a :: rest => Out.ok a { w with askInputs := rest } [Ev.ask q]

/-- `console.tell(message)`. -/
def consoleTell (m : String) (w : W) : Out Unit :=
  Out.ok () w [Ev.tell m]

/-- Python `str.lower`, over the ASCII range used by this CLI. -/
def pyLower (s : String) : String := String.mk (s.data.map Char.toLower)

/-- Python `str.replace(c, d)` for a one-character pattern. -/
def pyReplaceChar (c d : Char) (s : String) : String :=
  String.mk (s.data.map (fun x => if x = c then d else x))

/-- Python `int(s)` intersected with `str.isnumeric` (ASCII): `some` when
`s` is a nonempty digit string. -/
def pyToNat? (s : String) : Option Nat :=
  if s.data ≠ [] ∧ s.data.all Char.isDigit then
    some (s.data.foldl (fun acc c => acc * 10 + (c.toNat - 48)) 0)
  else none

/-- Truthiness of an optional default string (`if default and answer is ''`:
the default must be non-`None` and non-empty to be substituted). -/
def defaultTruthy : Option String → Bool
  | none => false
  | some d => d ≠ ""

/-- The answer after the blank-line default substitution of `_ask_prompt`
and `_binary_prompt`. -/
def applyDefault (default : Option String) (a : String) : String :=
  if defaultTruthy default && a == "" then default.getD "" else a

/-- `_ask_prompt`'s retry loop, recursing on the remaining input lines
(each iteration consumes exactly one `console.ask`).  `w` supplies the
non-console world fields; its `askInputs` field is overwritten with the
unconsumed remainder on return. -/
def askLoop (q : String) (validate : String → Except String Unit)
    (default : Option String) (w : W) : List String → Out String
  | [] => Out.blocked [Ev.ask q]
  | a :: rest =>
    let answer := applyDefault default a
    match validate answer with
    | Except.ok _ => Out.ok answer { w with askInputs := rest } [Ev.ask q]
    | Except.error e => (askLoop q validate default w rest).prepend [Ev.ask q, Ev.err e]

/-- `_ask_prompt(question, console, validate, default)`.  A `None`
validator is the caller passing `validate=None` (accept anything). -/
def askPrompt (q : String) (validate : String → Except String Unit)
    (default : Option String) (w : W) : Out String :=
  askLoop q validate default w w.askInputs

/-- `_multiple_choice_validate(s, default, len_options)`.  Mirrors the
source: blank is accepted when a default was given (`default is not
None`), otherwise the answer must be numeric and `1 <= int(s) <=
len_options + 1`. -/
def multipleChoiceValidate (s : String) (default : Option String)
    (lenOptions : Nat) : Except String Unit :=
  if default.isSome && s == "" then Except.ok ()
  else
    match pyToNat? s with
    | none => Except.error "Please enter a numeric value"
    | some n =>
      if 1 ≤ n ∧ n ≤ lenOptions + 1 then Except.ok ()
      else Except.error "Value is not in range"

/-- The retry loop of `_multiple_choice_prompt`: re-asks with the *raw*
(unformatted) question on failure, exactly as the source does. -/
def multipleChoiceLoop (question : String) (default : Option String)
    (lenOptions : Nat) (w : W) : String → List String → Out String
  | answer, inputs =>
    match multipleChoiceValidate answer default lenOptions with
    | Except.ok _ => Out.ok answer { w with askInputs := inputs } []
    | Except.error e =>
      match inputs with
      | [] => Out.blocked [Ev.err e, Ev.ask question]
      | a :: rest =>
        (multipleChoiceLoop question default lenOptions w a rest).prepend
          [Ev.err e, Ev.ask question]

/-- Split a character list at the first `\x7b\x7d` placeholder. -/
def findPlaceholder : List Char → Option (List Char × List Char)
  | [] => none
  | [_] => none
  | c1 :: c2 :: rest =>
    if c1 = '\x7b' ∧ c2 = '\x7d' then some ([], rest)
    else
      match findPlaceholder (c2 :: rest) with
      | none => none
      | some (pre, post) => some (c1 :: pre, post)

/-- Python `'...{}...'.format(arg)` for the templates of this file, which
carry exactly one placeholder: substitute `arg` for it. -/
def pyFormat1 (template arg : String) : String :=
  match findPlaceholder template.data with
  | none => template
  | some (pre, post) => String.mk (pre ++ arg.data ++ post)

/-- `_multiple_choice_prompt(question, options, console, default)`.
Note the source bug kept here faithfully: the local name `options` is
rebound to the newline-joined *string* of formatted options, so the
`len(options)` passed to the validator is that string's character count,
not the number of options. -/
def multipleChoicePrompt (question : String) (options : List String)
    (default : Option String) (w : W) : Out String :=
  let optionsFormatted := options.enum.map (fun p => toString (p.1 + 1) ++ ". " ++ p.2)
  let optionsStr := String.intercalate "\n" optionsFormatted
  match w.askInputs with
  | [] => Out.blocked [Ev.ask (pyFormat1 question optionsStr)]
  | a :: rest =>
    (multipleChoiceLoop question default optionsStr.length { w with askInputs := rest } a rest).prepend
      [Ev.ask (pyFormat1 question optionsStr)]

/-- `_binary_validate(s)`. -/
def binaryValidate (s : String) : Except String Unit :=
  if pyLower s = "y" ∨ pyLower s = "n" then Except.ok ()
  else Except.error "Please respond using \"y\" or \"n\""

/-- `_binary_prompt`'s loop.  Faithful asymmetry kept from the source: the
default-substituted answer is validated, a directly entered non-blank
answer is returned unchecked. -/
def binaryLoop (q : String) (default : Option String) (w : W) : List String → Out String
  | [] => Out.blocked [Ev.ask q]
  | a :: rest =>
    if defaultTruthy default && a == "" then
      match binaryValidate (default.getD "") with
      | Except.ok _ => Out.ok (default.getD "") { w with askInputs := rest } [Ev.ask q]
      | Except.error e => (binaryLoop q default w rest).prepend [Ev.ask q, Ev.err e]
    else Out.ok a { w with askInputs := rest } [Ev.ask q]

/-- `_binary_prompt(question, console, default)`. -/
def binaryPrompt (q : String) (default : Option String) (w : W) : Out String :=
  binaryLoop q default w w.askInputs

/-- `string.ascii_letters + string.digits + string.punctuation` (94 ASCII
characters; the punctuation block is written with escapes). -/
def allowedPasswordChars : List Char :=
  ("abcdefghijklmnopqrstuvwxyzABCDEFGHIJKLMNOPQRSTUVWXYZ0123456789" ++
    "!\"#$%&\x27()*+,-./:;<=>?@[\\]^_\x60\x7b|\x7d~").data

/-- `_password_validate(s)`: rejects when `len(s) < 5` (with a message
claiming six characters), and rejects when `frozenset(s)` is a *superset*
of the allowed characters - the source's literal, inverted condition. -/
def passwordValidate (s : String) : Except String Unit :=
  if s.length < 5 then
    Except.error "Passwords must be at least 6 characters long"
  else if allowedPasswordChars.all (fun c => s.data.contains c) then
    Except.error "Invalid character in password: use letters, numbers and punctuation"
  else Except.ok ()

/-- `_password_prompt`'s loop over the masked input lines: one `getpass`
per attempt, a second on successful validation, restart from the first
read on mismatch. -/
def passwordLoop (w : W) : List String → Out String
  | [] => Out.blocked [Ev.getpass "Password: "]
  | p1 :: rest =>
    match passwordValidate p1 with
    | Except.error e => (passwordLoop w rest).prepend [Ev.getpass "Password: ", Ev.err e]
    | Except.ok _ =>
      match rest with
      | [] => Out.blocked [Ev.getpass "Password: ", Ev.getpass "Password (again): "]
      | p2 :: rest2 =>
        if p1 = p2 then
          Out.ok p1 { w with passInputs := rest2 }
            [Ev.getpass "Password: ", Ev.getpass "Password (again): "]
        else
          (passwordLoop w rest2).prepend
            [Ev.getpass "Password: ", Ev.getpass "Password (again): ",
             Ev.err "Passwords do not match, please try again"]

/-- `_password_prompt(question, console)`. -/
def passwordPromptRun (question : String) (w : W) : Out String :=
  (passwordLoop w w.passInputs).prepend [Ev.tell question]

/-- Python `re.match(r'[a-z][a-z0-9\-]{5,29}', s)` as a predicate:
`re.match` anchors only at the start, so with backtracking the pattern
matches exactly when the first character is an ASCII lowercase letter and
at least five further characters from `[a-z0-9-]` follow. -/
def projectIdRegexMatch (s : String) : Bool :=
  match s.data with
  | [] => false
  | c :: rest =>
    c.isLower && 5 ≤ rest.length && (rest.take 5).all (fun d => d.isLower || d.isDigit || d == '-')

/-- `GoogleNewProjectId._validate` (and the identical regex check of
`GoogleExistingProjectId._validate`). -/
def projectIdValidate (s : String) : Except String Unit :=
  if projectIdRegexMatch s then Except.ok ()
  else
    Except.error ("Invalid Google Cloud Platform Project ID \"" ++ s ++
      "\": must be between 6 and 30 characters and contain lowercase letters, digits or hyphens")

/-- `GoogleExistingProjectId._validate`: the same regex, then the project
must exist according to the project client. -/
def existingProjectIdValidate (w : W) (s : String) : Except String Unit :=
  match projectIdValidate s with
  | Except.error e => Except.error e
  | Except.ok _ =>
    if w.projectExists s then Except.ok ()
    else Except.error ("Project " ++ s ++ " does not exist")

/-- `GoogleProjectName._is_new_project`: every mode other than
`MUST_EXIST` (including an absent one) counts as a new project. -/
def isNewProject : Option Value → Bool
  | some (Value.mode ProjectCreationMode.MUST_EXIST) => false
  | _ => true

/-- `BillingPrompt._does_project_exist`. -/
def doesProjectExist : Option Value → Bool
  | some (Value.mode ProjectCreationMode.MUST_EXIST) => true
  | _ => false

/-- The string behind a mapping value where the flow guarantees a string
(`project_id` is always entered as a string). -/
def Value.asStr : Value → String
  | Value.str s => s
  | _ => ""

/-- The `helper` closure of `GoogleProjectName._validate(project_id,
project_creation_mode)`. -/
def projectNameValidate (projectId : Option Value) (mode : Option Value) (w : W)
    (s : String) : Except String Unit :=
  if ¬ (4 ≤ s.length ∧ s.length ≤ 30) then
    Except.error ("Invalid Google Cloud Platform project name \"" ++ s ++
      "\": must be between 4 and 30 characters")
  else if isNewProject mode then Except.ok ()
  else
    match projectId with
    | none => Except.error "Project Id must be set"
    | some pid =>
      if w.projectNameOf pid.asStr = s then Except.ok ()
      else Except.error "Wrong project name given for project id."

/-- Python `str.isidentifier` over ASCII (no value in this CLI leaves
ASCII): nonempty, starts with a letter or underscore, continues with
letters, digits or underscores. -/
def pyIsIdentifier (s : String) : Bool :=
  match s.data with
  | [] => false
  | c :: rest => (c.isAlpha || c == '_') && rest.all (fun d => d.isAlphanum || d == '_')

/-- `DjangoProjectNamePrompt._validate` and (verbatim, including the
copy-pasted message) `DjangoAppNamePrompt._validate`. -/
def djangoProjectNameValidate (s : String) : Except String Unit :=
  if pyIsIdentifier s then Except.ok ()
  else
    Except.error ("Invalid Django project name \"" ++ s ++
      "\": must be a valid Python identifier")

/-- Python `str.isalnum` over ASCII. -/
def pyIsAlnum (s : String) : Bool :=
  match s.data with
  | [] => false
  | l => l.all Char.isAlphanum

/-- `DjangoSuperuserLoginPrompt._validate`. -/
def superuserLoginValidate (s : String) : Except String Unit :=
  if pyIsAlnum s then Except.ok ()
  else
    Except.error ("Invalid Django superuser login \"" ++ s ++
      "\": must be a alpha numeric")

/-- Python `re.match(r'[^@]+@[^@]+\.[^@]+', s)` as a predicate: there is a
first `@` at a positive index, and after it a dot preceded by at least one
non-`@` character and followed by a non-`@` character. -/
def emailRegexMatch (s : String) : Bool :=
  let cs := s.data
  (List.range cs.length).any fun i =>
    (List.range cs.length).any fun j =>
      1 ≤ i && i + 2 ≤ j && j + 1 < cs.length &&
      cs.getD i ' ' == '@' && (cs.take i).all (fun c => c != '@') &&
      cs.getD j ' ' == '.' && ((cs.drop (i + 1)).take (j - i - 1)).all (fun c => c != '@') &&
      cs.getD (j + 1) ' ' != '@'

/-- `DjangoSuperuserEmailPrompt._validate`. -/
def emailValidate (s : String) : Except String Unit :=
  if emailRegexMatch s then Except.ok ()
  else
    Except.error ("Invalid Django superuser email address \"" ++ s ++
      "\": the format should be like \"test@example.com\"")

/-- `GoogleNewProjectId._generate_default_project_id(project_name)`:
lowercase, spaces to hyphens, `django-` prefix when the first character is
not an ASCII lowercase letter, strip everything outside `[a-z0-9-]`,
truncate to `30 - 6 - 1` characters and append the `random.randint(100000,
1000000)` draw (`rand` - note Python's inclusive upper bound). -/
def generateDefaultProjectId (projectName : Option String) (rand : Nat) : String :=
  let base0 := match projectName with
    | some s => if s = "" then "django" else s
    | none => "django"
  let base1 := pyReplaceChar ' ' '-' (pyLower base0)
  let base2 := match base1.data with
    | c :: _ => if c.isLower then base1 else "django-" ++ base1
    | [] => "django-" ++ base1
  let base3 := String.mk (base2.data.filter (fun c => c.isLower || c.isDigit || c == '-'))
  String.mk (base3.data.take 23) ++ "-" ++ toString rand

/-- Result of applying a prompter's `_validate` to a flag-supplied value:
accepted, rejected with a `ValueError` message, or a `TypeError`-style
uncaught exception (a string validator applied to a non-string value). -/
inductive VRes where
  | ok
  | invalid (msg : String)
  | typeErr
deriving DecidableEq

/-- Lift a string validator to mapping values. -/
def strValidate (f : String → Except String Unit) : Value → VRes
  | Value.str s =>
    match f s with
    | Except.ok _ => VRes.ok
    | Except.error e => VRes.invalid e
  | _ => VRes.typeErr

/-- `TemplatePrompt._validate`, the base-class `pass`: accepts anything.
`CredentialsPrompt`, `BillingPrompt` and `DjangoFilesystemPath` do not
override `_validate` (they define `validate` or nothing), so their
flag-supplied values are checked by this. -/
def trivialValidate : Value → VRes := fun _ => VRes.ok

/-- `TemplatePrompt._is_valid_passed_arg(console, step, value, validate)`:
`False` for an absent value; on a validation error, report it and return
`False`; on success print the one confirmation line and return `True`. -/
def isValidPassedArg (step param : String) (value : Option Value)
    (validate : Value → VRes) (w : W) : Out Bool :=
  match value with
  | none => Out.ok false w []
  | some v =>
    match validate v with
    | VRes.typeErr => Out.crash []
    | VRes.invalid e => Out.ok false w [Ev.err e]
    | VRes.ok => Out.ok true w [Ev.tell (step ++ " " ++ param ++ ": " ++ v.render)]

/-- The shared shape of every `TemplatePrompt.prompt` body: check the
flag-supplied value first, return the copied mapping unchanged when it is
valid, otherwise run the interactive remainder of the method. -/
def guardedPrompt (param : String) (validate : Args → W → Value → VRes)
    (interactive : String → Args → W → Out Args)
    (step : String) (args : Args) (w : W) : Out Args :=
  Out.seq (isValidPassedArg step param (lookupArg param args) (validate args w) w)
    fun valid w1 =>
      if valid then Out.ok args w1 [] else interactive step args w1

/-- The interactive part of `StringTemplatePrompt.prompt`. -/
def stringTemplateInteractive (param pretty defaultValue : String)
    (validate : String → Except String Unit)
    (step : String) (args : Args) (w : W) : Out Args :=
  let msg := step ++ " Enter a value for " ++ pretty ++ " or leave blank to use" ++
    "\n[" ++ defaultValue ++ "]: "
  Out.seq (askPrompt msg validate (some defaultValue) w) fun answer w1 =>
    Out.ok (setArg param (Value.str answer) args) w1 []

/-- `StringTemplatePrompt.prompt` for a concrete subclass. -/
def stringTemplatePrompt (param pretty defaultValue : String)
    (validate : String → Except String Unit) : String → Args → W → Out Args :=
  guardedPrompt param (fun _ _ => strValidate validate)
    (stringTemplateInteractive param pretty defaultValue validate)

/-- `DjangoProjectNamePrompt`. -/
def djangoProjectNamePrompt : String → Args → W → Out Args :=
  stringTemplatePrompt "django_project_name" "Django project name" "mysite"
    djangoProjectNameValidate

/-- `DjangoAppNamePrompt`. -/
def djangoAppNamePrompt : String → Args → W → Out Args :=
  stringTemplatePrompt "django_app_name" "Django app name" "home"
    djangoProjectNameValidate

/-- `DjangoSuperuserLoginPrompt`. -/
def djangoSuperuserLoginPrompt : String → Args → W → Out Args :=
  stringTemplatePrompt "django_superuser_login" "Django superuser login name" "admin"
    superuserLoginValidate

/-- `DjangoSuperuserEmailPrompt`. -/
def djangoSuperuserEmailPrompt : String → Args → W → Out Args :=
  stringTemplatePrompt "django_superuser_email" "Django superuser email" "test@example.com"
    emailValidate

/-- Python `'{}'.format(active_account)`: `None` prints as `None`. -/
def pyStrOpt : Option String → String
  | none => "None"
  | some s => s

/-- Truthiness of the active account (`if active_account:`). -/
def optStrTruthy : Option String → Bool
  | none => false
  | some s => s ≠ ""

/-- The interactive part of `CredentialsPrompt.prompt`: tell the step
banner, run the reuse-account binary prompt (default `Y`), then create
fresh default credentials unless an active account exists and the user did
not answer `n`. -/
def credentialsInteractive (step : String) (args : Args) (w : W) : Out Args :=
  Out.seq (consoleTell (step ++ " In order to deploy your application, you must allow Django " ++
      "Deploy to access your Google account.") w) fun _ w1 =>
  Out.seq (binaryPrompt ("You have logged in with account [" ++ pyStrOpt w.activeAccount ++
      "]. Do you want to use it? [Y/n]: ") (some "Y") w1) fun useActive w2 =>
  let createNew := if optStrTruthy w.activeAccount then pyLower useActive == "n" else true
  let credsVal := if createNew then w.newCreds else w.defaultCreds
  Out.ok (setArg "credentials" (Value.creds credsVal) args) w2 []

/-- `CredentialsPrompt.prompt`. -/
def credentialsPrompt : String → Args → W → Out Args :=
  guardedPrompt "credentials" (fun _ _ => trivialValidate) credentialsInteractive

/-- The interactive part of `GoogleNewProjectId.prompt`. -/
def googleNewProjectIdInteractive (step : String) (args : Args) (w : W) : Out Args :=
  let defaultAnswer := generateDefaultProjectId
    (match lookupArg "project_name" args with
     | some (Value.str s) => some s
     | _ => none) w.randNat
  let msg := step ++ " Enter a Google Cloud Platform Project ID, or leave blank to use" ++
    "\n[" ++ defaultAnswer ++ "]: "
  Out.seq (askPrompt msg projectIdValidate (some defaultAnswer) w) fun answer w1 =>
    Out.ok (setArg "project_id" (Value.str answer) args) w1 []

/-- `GoogleNewProjectId.prompt`. -/
def googleNewProjectIdPrompt : String → Args → W → Out Args :=
  guardedPrompt "project_id" (fun _ _ => strValidate projectIdValidate)
    googleNewProjectIdInteractive

/-- The interactive part of `GoogleExistingProjectId.prompt`. -/
def googleExistingProjectIdInteractive (step : String) (args : Args) (w : W) : Out Args :=
  let msg := step ++ " Enter the <b>existing<b> Google Cloud Platform Project ID to use."
  Out.seq (askPrompt msg (existingProjectIdValidate w) none w) fun answer w1 =>
    Out.ok (setArg "project_id" (Value.str answer) args) w1 []

/-- `GoogleExistingProjectId.prompt`. -/
def googleExistingProjectIdPrompt : String → Args → W → Out Args :=
  guardedPrompt "project_id" (fun _ w => strValidate (existingProjectIdValidate w))
    googleExistingProjectIdInteractive

/-- `GoogleProjectId.prompt`: dispatch on the `use_existing_project` flag. -/
def googleProjectIdPrompt (step : String) (args : Args) (w : W) : Out Args :=
  if optValueTruthy (lookupArg "use_existing_project" args) then
    googleExistingProjectIdPrompt step args w
  else googleNewProjectIdPrompt step args w

/-- The interactive part of `GoogleProjectName.prompt`: ask for a fresh
name for a new project; for an existing project (`assert 'project_id' in
args`), look the name up and merely confirm it. -/
def googleProjectNameInteractive (step : String) (args : Args) (w : W) : Out Args :=
  let mode := lookupArg "project_creation_mode" args
  if isNewProject mode then
    let msg := step ++ " Enter a Google Cloud Platform project name, or leave blank to use" ++
      "\n[Django Project]: "
    Out.seq (askPrompt msg (projectNameValidate (lookupArg "project_id" args) mode w)
        (some "Django Project") w) fun answer w1 =>
      Out.ok (setArg "project_name" (Value.str answer) args) w1 []
  else
    match lookupArg "project_id" args with
    | some pid =>
      let name := w.projectNameOf pid.asStr
      Out.ok (setArg "project_name" (Value.str name) args) w
        [Ev.tell (step ++ " project_name: " ++ name)]
    | none => Out.crash []

/-- `GoogleProjectName.prompt`. -/
def googleProjectNamePrompt : String → Args → W → Out Args :=
  guardedPrompt "project_name"
    (fun args w => strValidate (projectNameValidate (lookupArg "project_id" args)
      (lookupArg "project_creation_mode" args) w))
    googleProjectNameInteractive

/-- One `BillingClient.list_billing_accounts(only_open_accounts=True)`
call: consume the next response of the stream. -/
def listBillingAccounts (w : W) : Out (List BAccount) :=
  match w.billingLists with
  | [] => Out.blocked []
  | bs :: rest => Out.ok bs { w with billingLists := rest } []

/-- The polling loop of `BillingPrompt._get_new_billing_account`, recursing
on the remaining response stream: stop as soon as a polled list's length
differs from the initial list's length, then return `diff[0]` - which
raises `IndexError` when the set difference is empty.  (Python iterates a
`set`; the model takes the first polled name absent from the initial
names, the same representative up to set order.) -/
def billingPollLoop (existingNames : List String) (existingLen : Nat) (w : W) :
    List (List BAccount) → Out String
  | [] => Out.blocked []
  | bs :: rest =>
    if existingLen ≠ bs.length then
      match (bs.map BAccount.name).filter (fun n => ¬ existingNames.contains n) with
      | [] => Out.crash []
      | d :: _ => Out.ok d { w with billingLists := rest } []
    else (billingPollLoop existingNames existingLen w rest).prepend [Ev.sleep]

/-- `BillingPrompt._get_new_billing_account(console, existing)`: open the
billing-creation page in a browser, announce the wait, then poll. -/
def getNewBillingAccount (existing : List BAccount) (w : W) : Out String :=
  (billingPollLoop (existing.map BAccount.name) existing.length w w.billingLists).prepend
    [Ev.browse "https://console.cloud.google.com/billing/create",
     Ev.tell "Waiting for billing account to be created."]

/-- `BillingPrompt._has_existing_billing_account(console, step, args)`:
asserts `project_id` is present, returns `None` when billing is not
enabled, otherwise tells the short-circuit message and returns the
(possibly absent) `billingAccountName`. -/
def hasExistingBillingAccount (step : String) (args : Args) (w : W) : Out (Option String) :=
  match lookupArg "project_id" args with
  | some pid =>
    let info := w.billingOf pid.asStr
    if info.billingEnabled then
      Out.ok info.billingAccountName w [Ev.tell (step ++ " Billing is already enabled on this project.")]
    else Out.ok none w []
  | none => Out.crash []

/-- `BillingPrompt._handle_existing_billing_accounts(console, accounts)`:
numbered-choice prompt whose blank default means "create new"; a numeric
answer indexes `billing_accounts[int(answer) - 1]`, which raises
`IndexError` when the (buggy, string-length based) validation admitted an
index beyond the option count. -/
def handleExistingBillingAccounts (accounts : List BAccount) (w : W) : Out String :=
  let question := "You have the following existing billing accounts:\n\x7b\x7d\n" ++
    "Please enter your numeric choice or press [Enter] to create a new billing account: "
  Out.seq (multipleChoicePrompt question (accounts.map BAccount.displayName) (some "") w)
    fun answer w1 =>
      if answer = "" then getNewBillingAccount accounts w1
      else
        match accounts.get? ((pyToNat? answer).getD 0 - 1) with
        | none => Out.crash []
        | some acc => Out.ok acc.name w1 []

/-- The interactive part of `BillingPrompt.prompt`: short-circuit on an
existing project with billing enabled, otherwise list accounts, offer the
menu when any exist, and fall back to browser-driven account creation. -/
def billingInteractive (step : String) (args : Args) (w : W) : Out Args :=
  let mode := lookupArg "project_creation_mode" args
  Out.seq (if doesProjectExist mode then hasExistingBillingAccount step args w
           else Out.ok none w []) fun found w1 =>
    match found with
    | some name => Out.ok (setArg "billing_account_name" (Value.str name) args) w1 []
    | none =>
      Out.seq (listBillingAccounts w1) fun accounts w2 =>
      Out.seq (consoleTell (step ++ " In order to deploy your application, you must enable " ++
          "billing for your Google Cloud Project.") w2) fun _ w3 =>
        if accounts.isEmpty then
          Out.seq (consoleTell "You do not have existing billing accounts." w3) fun _ w4 =>
          Out.seq (consoleAsk "Press [Enter] to create a new billing account." w4) fun _ w5 =>
          Out.seq (getNewBillingAccount accounts w5) fun val w6 =>
            Out.ok (setArg "billing_account_name" (Value.str val) args) w6 []
        else
          Out.seq (handleExistingBillingAccounts accounts w3) fun val w4 =>
            Out.ok (setArg "billing_account_name" (Value.str val) args) w4 []

/-- `BillingPrompt.prompt`.  Its flag check uses the inherited base-class
`_validate` (the class defines `validate`, without underscore, which
`_is_valid_passed_arg` never calls), so any passed value is accepted. -/
def billingPrompt : String → Args → W → Out Args :=
  guardedPrompt "billing_account_name" (fun _ _ => trivialValidate) billingInteractive

/-- The interactive part of `PostgresPasswordPrompt.prompt`. -/
def postgresPasswordInteractive (step : String) (args : Args) (w : W) : Out Args :=
  Out.seq (passwordPromptRun (step ++ " Enter a password for the default database user \"postgres\"") w)
    fun pw w1 => Out.ok (setArg "database_password" (Value.str pw) args) w1 []

/-- `PostgresPasswordPrompt.prompt`. -/
def postgresPasswordPrompt : String → Args → W → Out Args :=
  guardedPrompt "database_password" (fun _ _ => strValidate passwordValidate)
    postgresPasswordInteractive

/-- `os.path.join(a, b)` for the two-argument uses in this file. -/
def pathJoin (a b : String) : String :=
  if b.data.head? = some '/' then b
  else if a = "" then b
  else if a.data.getLast? = some '/' then a ++ b
  else a ++ "/" ++ b

/-- The default directory computed by
`DjangoFilesystemPath._ask_for_directory`: home directory joined with the
slugified project name (`'django-project'` when the key is absent). -/
def fsDefaultDir (args : Args) (w : W) : String :=
  pathJoin w.homeDir
    (pyReplaceChar ' ' '-' (pyLower (match lookupArg "project_name" args with
      | some (Value.str s) => s
      | _ => "django-project")))

/-- The question `DjangoFilesystemPath._ask_for_directory` displays. -/
def fsDirMsg (step : String) (args : Args) (w : W) : String :=
  step ++ " Enter a new directory path to store project source, or leave blank to use" ++
    "\n[" ++ fsDefaultDir args w ++ "]: "

/-- The overwrite-confirmation question of
`DjangoFilesystemPath._ask_to_replace` (the apostrophes are escaped). -/
def fsReplaceMsg (dir : String) : String :=
  "The directory \x27" ++ dir ++ "\x27 already exists, replace it\x27s contents [y/N]: "

/-- The interactive part of `DjangoFilesystemPath.prompt`.  The source's
`while True:` body reaches a `break` on every path (`break` when the
replace answer is `'y'`, and the unconditional `break` that follows
otherwise), so the body runs exactly once and is embedded straight-line:
ask for the directory (no validator), ask the overwrite confirmation when
the directory exists, and record the entered directory regardless of the
confirmation answer. -/
def djangoFilesystemPathInteractive (step : String) (args : Args) (w : W) : Out Args :=
  Out.seq (askPrompt (fsDirMsg step args w) (fun _ => Except.ok ())
      (some (fsDefaultDir args w)) w) fun directory w1 =>
    if w1.pathExists directory then
      Out.seq (askPrompt (fsReplaceMsg directory) (fun _ => Except.ok ()) (some "n") w1)
        fun _ w2 =>
          Out.ok (setArg "django_directory_path" (Value.str directory) args) w2 []
    else Out.ok (setArg "django_directory_path" (Value.str directory) args) w1 []

/-- `DjangoFilesystemPath.prompt` (its `validate` is a stub and `_validate`
is the base-class `pass`, so any flag value passes). -/
def djangoFilesystemPathPrompt : String → Args → W → Out Args :=
  guardedPrompt "django_directory_path" (fun _ _ => trivialValidate)
    djangoFilesystemPathInteractive

/-- The interactive part of `DjangoSuperuserPasswordPrompt.prompt`:
`args['django_superuser_login']` raises `KeyError` when absent. -/
def djangoSuperuserPasswordInteractive (step : String) (args : Args) (w : W) : Out Args :=
  match lookupArg "django_superuser_login" args with
  | none => Out.crash []
  | some v =>
    Out.seq (passwordPromptRun (step ++ " Enter a password for the Django superuser \"" ++
        v.render ++ "\"") w) fun pw w1 =>
      Out.ok (setArg "django_superuser_password" (Value.str pw) args) w1 []

/-- `DjangoSuperuserPasswordPrompt.prompt`. -/
def djangoSuperuserPasswordPrompt : String → Args → W → Out Args :=
  guardedPrompt "django_superuser_password" (fun _ _ => strValidate passwordValidate)
    djangoSuperuserPasswordInteractive

/-- `RootPrompt.PROMPT_ORDER`. -/
def PROMPT_ORDER : List String :=
  ["project_id", "project_name", "billing_account_name", "database_password",
   "django_directory_path", "django_project_name", "django_app_name",
   "django_superuser_login", "django_superuser_password", "django_superuser_email"]

/-- The dictionary built by `RootPrompt._setup_prompts`. -/
def paramPrompter : String → String → Args → W → Out Args
  | "project_id" => googleProjectIdPrompt
  | "project_name" => googleProjectNamePrompt
  | "billing_account_name" => billingPrompt
  | "database_password" => postgresPasswordPrompt
  | "django_directory_path" => djangoFilesystemPathPrompt
  | "django_project_name" => djangoProjectNamePrompt
  | "django_app_name" => djangoAppNamePrompt
  | "django_superuser_login" => djangoSuperuserLoginPrompt
  | "django_superuser_password" => djangoSuperuserPasswordPrompt
  | "django_superuser_email" => djangoSuperuserEmailPrompt
  | _ => fun _ _ _ => Out.crash []

/-- `'<b>[{}/{}]</b>'.format(i, total)`. -/
def stepStr (i total : Nat) : String :=
  "<b>[" ++ toString i ++ "/" ++ toString total ++ "]</b>"

/-- The `for i, prompt in enumerate(self.PROMPT_ORDER, 2):` loop of
`RootPrompt.prompt`, threading the growing mapping. -/
def runPromptSeq : List (Nat × String) → Args → W → Out Args
  | [], args, w => Out.ok args w []
  | (i, p) :: rest, args, w =>
    Out.seq (paramPrompter p (stepStr i (PROMPT_ORDER.length + 1)) args w) fun args1 w1 =>
      runPromptSeq rest args1 w1

/-- `RootPrompt.prompt(console, args)`: set the creation mode from the
`use_existing_project` flag, resolve credentials first (passing the
*original* `args`, as the source does) and extract `['credentials']`, then
run the ten ordered prompters with steps 2 through 11. -/
def rootPrompt (args : Args) (w : W) : Out Args :=
  let args1 := if optValueTruthy (lookupArg "use_existing_project" args) then
      setArg "project_creation_mode" (Value.mode ProjectCreationMode.MUST_EXIST) args
    else args
  Out.seq (credentialsPrompt (stepStr 1 (PROMPT_ORDER.length + 1)) args w) fun credArgs w1 =>
    match lookupArg "credentials" credArgs with
    | none => Out.crash []
    | some c => runPromptSeq (PROMPT_ORDER.enumFrom 2) (setArg "credentials" c args1) w1

/-- The command-line flag values of the update entry point
(`--credentials`, `--database-password`, `--project-path`). -/
structure UpdateArgs where
  credentials : Option String
  database_password : Option String
  django_directory_path : Option String

/-- The `validate` class methods of `prompt.CredentialsPrompt`,
`prompt.PostgresPasswordUpdatePrompt` and
`prompt.DjangoFilesystemPathUpdate`.  Modelled from the spec: the
`django_cloud_deploy.cli.prompt` module is not among the sources; spec
section 6 says each flag "is validated exactly as the corresponding
interactive prompt would validate it", so the three validators are kept
abstract here and the update flow is proved for every choice of them. -/
structure UpdateValidators where
  credentials : String → Except String Unit
  database_password : String → Except String Unit
  django_directory_path : String → Except String Unit

/-- State of the flag-processing loop of `update.main`: either the process
has exited (`print(e, file=sys.stderr)` then `sys.exit(1)`, recording the
printed message and the exit status), or it proceeds with the validated
`actual_parameters` and the names still to prompt interactively. -/
inductive UpdateStep where
  | exited (message : String) (status : Nat)
  | proceed (actual : List (String × String)) (remaining : List String)
deriving DecidableEq

/-- One iteration of the `for parameter_name, prompter in
required_parameters_to_prompt.items():` loop of `update.main`. -/
def processFlag (name : String) (validate : String → Except String Unit)
    (value : Option String) : UpdateStep → UpdateStep
  | UpdateStep.exited e n => UpdateStep.exited e n
  | UpdateStep.proceed acc rem =>
    match value with
    | none => UpdateStep.proceed acc (rem ++ [name])
    | some v =>
      match validate v with
      | Except.ok _ => UpdateStep.proceed (acc ++ [(name, v)]) rem
      | Except.error e => UpdateStep.exited e 1

/-- The flag-validation phase of `update.main`: the dict iterates in
insertion order `credentials`, `database_password`,
`django_directory_path`. -/
def updateFlagPhase (V : UpdateValidators) (f : UpdateArgs) : UpdateStep :=
  processFlag "django_directory_path" V.django_directory_path f.django_directory_path
    (processFlag "database_password" V.database_password f.database_password
      (processFlag "credentials" V.credentials f.credentials (UpdateStep.proceed [] [])))

/-- Some flag-supplied value of the update entry point fails its
validator. -/
def flagFails (V : UpdateValidators) (f : UpdateArgs) : Prop :=
  (∃ v e, f.credentials = some v ∧ V.credentials v = Except.error e) ∨
  (∃ v e, f.database_password = some v ∧ V.database_password v = Except.error e) ∨
  (∃ v e, f.django_directory_path = some v ∧ V.django_directory_path v = Except.error e)

theorem lookupArg_setArg_self (k : String) (v : Value) (args : Args) :
    lookupArg k (setArg k v args) = some v := by
  induction args with
  | nil => simp [setArg, lookupArg]
  | cons kv rest ih =>
    obtain ⟨k1, v1⟩ := kv
    by_cases hk : k1 = k
    · subst hk; simp [setArg, lookupArg]
    · simp [setArg, lookupArg, hk, ih]

theorem lookupArg_setArg_ne {k1 k : String} (h : k1 ≠ k) (v : Value) (args : Args) :
    lookupArg k1 (setArg k v args) = lookupArg k1 args := by
  induction args with
  | nil => simp [setArg, lookupArg, Ne.symm h]
  | cons kv rest ih =>
    obtain ⟨k2, v2⟩ := kv
    by_cases hk : k2 = k
    · subst hk
      simp only [setArg, if_pos rfl, lookupArg]
      rw [if_neg (fun hh => h hh.symm), if_neg (fun hh => h hh.symm)]
    · by_cases hk1 : k2 = k1
      · subst hk1; simp [setArg, lookupArg, hk]
      · simp [setArg, lookupArg, hk, hk1, ih]

/-- What one `TemplatePrompt.prompt` call does to the mapping on normal
return: either the flag short-circuit returned the copy unchanged (its own
key was already present), or exactly its own key was written. -/
def promptOutcome (p : String) (args args1 : Args) : Prop :=
  (args1 = args ∧ (lookupArg p args).isSome) ∨ ∃ v, args1 = setArg p v args

theorem promptOutcome_self {p : String} {args args1 : Args}
    (h : promptOutcome p args args1) : (lookupArg p args1).isSome := by
  rcases h with ⟨rfl, hs⟩ | ⟨v, rfl⟩
  · exact hs
  · rw [lookupArg_setArg_self]; rfl

theorem promptOutcome_pres {p k : String} {args args1 : Args}
    (h : promptOutcome p args args1) (hk : k ≠ p)
    (hs : (lookupArg k args).isSome) : (lookupArg k args1).isSome := by
  rcases h with ⟨rfl, _⟩ | ⟨v, rfl⟩
  · exact hs
  · rw [lookupArg_setArg_ne hk]; exact hs

theorem promptOutcome_lookup_ne {p k : String} {args args1 : Args}
    (h : promptOutcome p args args1) (hk : k ≠ p) :
    lookupArg k args1 = lookupArg k args := by
  rcases h with ⟨rfl, _⟩ | ⟨v, rfl⟩
  · rfl
  · exact lookupArg_setArg_ne hk v args

theorem isValidPassedArg_ok {step param : String} {value : Option Value}
    {validate : Value → VRes} {w : W} {valid : Bool} {w1 : W} {t : List Ev}
    (h : isValidPassedArg step param value validate w = Out.ok valid w1 t) :
    w1 = w ∧ (valid = true → ∃ v, value = some v ∧ validate v = VRes.ok) := by
  cases value with
  | none =>
    rw [isValidPassedArg] at h
    injection h with e1 e2 e3
    exact ⟨e2.symm, fun hv => absurd (e1.trans hv) (by simp)⟩
  | some v =>
    rw [isValidPassedArg] at h
    cases hv : validate v with
    | ok =>
      rw [hv] at h
      injection h with e1 e2 e3
      exact ⟨e2.symm, fun _ => ⟨v, rfl, hv⟩⟩
    | invalid e =>
      rw [hv] at h
      injection h with e1 e2 e3
      exact ⟨e2.symm, fun hvv => absurd (e1.trans hvv) (by simp)⟩
    | typeErr => rw [hv] at h; exact absurd h (by simp)

theorem guardedPrompt_ok {param : String} {validate : Args → W → Value → VRes}
    {interactive : String → Args → W → Out Args} {step : String} {args args1 : Args}
    {w w1 : W} {t : List Ev}
    (hInt : ∀ step2 args2 w2 args3 w3 t2, interactive step2 args2 w2 = Out.ok args3 w3 t2 →
      ∃ v, args3 = setArg param v args2)
    (h : guardedPrompt param validate interactive step args w = Out.ok args1 w1 t) :
    promptOutcome param args args1 := by
  rw [guardedPrompt, Out.seq_eq_ok] at h
  obtain ⟨valid, w2, t1, t2, h1, h2, ht⟩ := h
  obtain ⟨rfl, hval⟩ := isValidPassedArg_ok h1
  cases valid with
  | true =>
    rw [if_pos rfl] at h2
    injection h2 with e1 e2 e3
    obtain ⟨v, hv, _⟩ := hval rfl
    exact Or.inl ⟨e1.symm, by rw [hv]; rfl⟩
  | false =>
    rw [if_neg (by simp)] at h2
    exact Or.inr (hInt _ _ _ _ _ _ h2)

theorem stringTemplateInteractive_sets {param pretty dv : String}
    {validate : String → Except String Unit} {step : String} {args args1 : Args}
    {w w1 : W} {t : List Ev}
    (h : stringTemplateInteractive param pretty dv validate step args w = Out.ok args1 w1 t) :
    ∃ v, args1 = setArg param v args := by
  simp only [stringTemplateInteractive, Out.seq_eq_ok] at h
  obtain ⟨a, w2, t1, t2, _, h2, _⟩ := h
  injection h2 with e1 e2 e3
  exact ⟨Value.str a, e1.symm⟩

theorem credentialsInteractive_sets {step : String} {args args1 : Args}
    {w w1 : W} {t : List Ev}
    (h : credentialsInteractive step args w = Out.ok args1 w1 t) :
    ∃ v, args1 = setArg "credentials" v args := by
  simp only [credentialsInteractive, Out.seq_eq_ok] at h
  obtain ⟨u, w2, t1, t2, _, h2, _⟩ := h
  obtain ⟨a, w3, t3, t4, _, h4, _⟩ := h2
  injection h4 with e1 e2 e3
  exact ⟨_, e1.symm⟩

theorem googleNewProjectIdInteractive_sets {step : String} {args args1 : Args}
    {w w1 : W} {t : List Ev}
    (h : googleNewProjectIdInteractive step args w = Out.ok args1 w1 t) :
    ∃ v, args1 = setArg "project_id" v args := by
  simp only [googleNewProjectIdInteractive, Out.seq_eq_ok] at h
  obtain ⟨a, w2, t1, t2, _, h2, _⟩ := h
  injection h2 with e1 e2 e3
  exact ⟨Value.str a, e1.symm⟩

theorem googleExistingProjectIdInteractive_sets {step : String} {args args1 : Args}
    {w w1 : W} {t : List Ev}
    (h : googleExistingProjectIdInteractive step args w = Out.ok args1 w1 t) :
    ∃ v, args1 = setArg "project_id" v args := by
  simp only [googleExistingProjectIdInteractive, Out.seq_eq_ok] at h
  obtain ⟨a, w2, t1, t2, _, h2, _⟩ := h
  injection h2 with e1 e2 e3
  exact ⟨Value.str a, e1.symm⟩

theorem googleProjectNameInteractive_sets {step : String} {args args1 : Args}
    {w w1 : W} {t : List Ev}
    (h : googleProjectNameInteractive step args w = Out.ok args1 w1 t) :
    ∃ v, args1 = setArg "project_name" v args := by
  simp only [googleProjectNameInteractive] at h
  split at h
  · simp only [Out.seq_eq_ok] at h
    obtain ⟨a, w2, t1, t2, _, h2, _⟩ := h
    injection h2 with e1 e2 e3
    exact ⟨Value.str a, e1.symm⟩
  · split at h
    · injection h with e1 e2 e3
      exact ⟨_, e1.symm⟩
    · exact absurd h (by simp)

theorem billingInteractive_sets {step : String} {args args1 : Args}
    {w w1 : W} {t : List Ev}
    (h : billingInteractive step args w = Out.ok args1 w1 t) :
    ∃ v, args1 = setArg "billing_account_name" v args := by
  simp only [billingInteractive, Out.seq_eq_ok] at h
  obtain ⟨found, w2, t1, t2, _, h2, _⟩ := h
  cases found with
  | some name =>
    injection h2 with e1 e2 e3
    exact ⟨_, e1.symm⟩
  | none =>
    simp only [Out.seq_eq_ok] at h2
    obtain ⟨accounts, w3, t3, t4, _, h4, _⟩ := h2
    obtain ⟨u, w5, t5, t6, _, h6, _⟩ := h4
    split at h6
    · simp only [Out.seq_eq_ok] at h6
      obtain ⟨u2, w7, t7, t8, _, h8, _⟩ := h6
      obtain ⟨a3, w9, t9, t10, _, h10, _⟩ := h8
      obtain ⟨val, w11, t11, t12, _, h12, _⟩ := h10
      injection h12 with e1 e2 e3
      exact ⟨_, e1.symm⟩
    · simp only [Out.seq_eq_ok] at h6
      obtain ⟨val, w7, t7, t8, _, h8, _⟩ := h6
      injection h8 with e1 e2 e3
      exact ⟨_, e1.symm⟩

theorem postgresPasswordInteractive_sets {step : String} {args args1 : Args}
    {w w1 : W} {t : List Ev}
    (h : postgresPasswordInteractive step args w = Out.ok args1 w1 t) :
    ∃ v, args1 = setArg "database_password" v args := by
  simp only [postgresPasswordInteractive, Out.seq_eq_ok] at h
  obtain ⟨a, w2, t1, t2, _, h2, _⟩ := h
  injection h2 with e1 e2 e3
  exact ⟨Value.str a, e1.symm⟩

theorem djangoFilesystemPathInteractive_sets {step : String} {args args1 : Args}
    {w w1 : W} {t : List Ev}
    (h : djangoFilesystemPathInteractive step args w = Out.ok args1 w1 t) :
    ∃ v, args1 = setArg "django_directory_path" v args := by
  simp only [djangoFilesystemPathInteractive, Out.seq_eq_ok] at h
  obtain ⟨a, w2, t1, t2, _, h2, _⟩ := h
  split at h2
  · simp only [Out.seq_eq_ok] at h2
    obtain ⟨a2, w3, t3, t4, _, h4, _⟩ := h2
    injection h4 with e1 e2 e3
    exact ⟨Value.str a, e1.symm⟩
  · injection h2 with e1 e2 e3
    exact ⟨Value.str a, e1.symm⟩

theorem djangoSuperuserPasswordInteractive_sets {step : String} {args args1 : Args}
    {w w1 : W} {t : List Ev}
    (h : djangoSuperuserPasswordInteractive step args w = Out.ok args1 w1 t) :
    ∃ v, args1 = setArg "django_superuser_password" v args := by
  rw [djangoSuperuserPasswordInteractive] at h
  split at h
  · exact absurd h (by simp)
  · simp only [Out.seq_eq_ok] at h
    obtain ⟨a, w2, t1, t2, _, h2, _⟩ := h
    injection h2 with e1 e2 e3
    exact ⟨Value.str a, e1.symm⟩

theorem credentialsPrompt_outcome {step : String} {args args1 : Args} {w w1 : W} {t : List Ev}
    (h : credentialsPrompt step args w = Out.ok args1 w1 t) :
    promptOutcome "credentials" args args1 :=
  guardedPrompt_ok (fun _ _ _ _ _ _ hh => credentialsInteractive_sets hh) h

theorem googleProjectIdPrompt_outcome {step : String} {args args1 : Args} {w w1 : W} {t : List Ev}
    (h : googleProjectIdPrompt step args w = Out.ok args1 w1 t) :
    promptOutcome "project_id" args args1 := by
  rw [googleProjectIdPrompt] at h
  split at h
  · exact guardedPrompt_ok (fun _ _ _ _ _ _ hh => googleExistingProjectIdInteractive_sets hh) h
  · exact guardedPrompt_ok (fun _ _ _ _ _ _ hh => googleNewProjectIdInteractive_sets hh) h

theorem googleProjectNamePrompt_outcome {step : String} {args args1 : Args} {w w1 : W} {t : List Ev}
    (h : googleProjectNamePrompt step args w = Out.ok args1 w1 t) :
    promptOutcome "project_name" args args1 :=
  guardedPrompt_ok (fun _ _ _ _ _ _ hh => googleProjectNameInteractive_sets hh) h

theorem billingPrompt_outcome {step : String} {args args1 : Args} {w w1 : W} {t : List Ev}
    (h : billingPrompt step args w = Out.ok args1 w1 t) :
    promptOutcome "billing_account_name" args args1 :=
  guardedPrompt_ok (fun _ _ _ _ _ _ hh => billingInteractive_sets hh) h

theorem postgresPasswordPrompt_outcome {step : String} {args args1 : Args} {w w1 : W} {t : List Ev}
    (h : postgresPasswordPrompt step args w = Out.ok args1 w1 t) :
    promptOutcome "database_password" args args1 :=
  guardedPrompt_ok (fun _ _ _ _ _ _ hh => postgresPasswordInteractive_sets hh) h

theorem djangoFilesystemPathPrompt_outcome {step : String} {args args1 : Args} {w w1 : W}
    {t : List Ev}
    (h : djangoFilesystemPathPrompt step args w = Out.ok args1 w1 t) :
    promptOutcome "django_directory_path" args args1 :=
  guardedPrompt_ok (fun _ _ _ _ _ _ hh => djangoFilesystemPathInteractive_sets hh) h

theorem djangoProjectNamePrompt_outcome {step : String} {args args1 : Args} {w w1 : W}
    {t : List Ev}
    (h : djangoProjectNamePrompt step args w = Out.ok args1 w1 t) :
    promptOutcome "django_project_name" args args1 := by
  rw [djangoProjectNamePrompt, stringTemplatePrompt] at h
  exact guardedPrompt_ok (fun _ _ _ _ _ _ hh => stringTemplateInteractive_sets hh) h

theorem djangoAppNamePrompt_outcome {step : String} {args args1 : Args} {w w1 : W} {t : List Ev}
    (h : djangoAppNamePrompt step args w = Out.ok args1 w1 t) :
    promptOutcome "django_app_name" args args1 := by
  rw [djangoAppNamePrompt, stringTemplatePrompt] at h
  exact guardedPrompt_ok (fun _ _ _ _ _ _ hh => stringTemplateInteractive_sets hh) h

theorem djangoSuperuserLoginPrompt_outcome {step : String} {args args1 : Args} {w w1 : W}
    {t : List Ev}
    (h : djangoSuperuserLoginPrompt step args w = Out.ok args1 w1 t) :
    promptOutcome "django_superuser_login" args args1 := by
  rw [djangoSuperuserLoginPrompt, stringTemplatePrompt] at h
  exact guardedPrompt_ok (fun _ _ _ _ _ _ hh => stringTemplateInteractive_sets hh) h

theorem djangoSuperuserPasswordPrompt_outcome {step : String} {args args1 : Args} {w w1 : W}
    {t : List Ev}
    (h : djangoSuperuserPasswordPrompt step args w = Out.ok args1 w1 t) :
    promptOutcome "django_superuser_password" args args1 :=
  guardedPrompt_ok (fun _ _ _ _ _ _ hh => djangoSuperuserPasswordInteractive_sets hh) h

theorem djangoSuperuserEmailPrompt_outcome {step : String} {args args1 : Args} {w w1 : W}
    {t : List Ev}
    (h : djangoSuperuserEmailPrompt step args w = Out.ok args1 w1 t) :
    promptOutcome "django_superuser_email" args args1 := by
  rw [djangoSuperuserEmailPrompt, stringTemplatePrompt] at h
  exact guardedPrompt_ok (fun _ _ _ _ _ _ hh => stringTemplateInteractive_sets hh) h

/-- C1: on an empty answer mapping (so `use_existing_project` is unset),
every normally-returning run of `RootPrompt.prompt` resolves credentials
first as step 1 of 11, then runs the ten `PROMPT_ORDER` prompters as steps
2 through 11 in exactly that sequence - the whole event trace is the
concatenation of the eleven prompters' traces in that order - and the
returned mapping holds a populated value for `credentials` and for each of
the ten `PROMPT_ORDER` keys. -/
theorem root_prompt_sequences_and_populates (w : W) (res : Args) (wf : W) (t : List Ev)
    (h : rootPrompt [] w = Out.ok res wf t) :
    ((lookupArg "credentials" res).isSome ∧ ∀ k ∈ PROMPT_ORDER, (lookupArg k res).isSome) ∧
    ∃ (a1 : Args) (w1 : W) (t1 : List Ev) (c : Value)
      (a2 : Args) (w2 : W) (t2 : List Ev) (a3 : Args) (w3 : W) (t3 : List Ev)
      (a4 : Args) (w4 : W) (t4 : List Ev) (a5 : Args) (w5 : W) (t5 : List Ev)
      (a6 : Args) (w6 : W) (t6 : List Ev) (a7 : Args) (w7 : W) (t7 : List Ev)
      (a8 : Args) (w8 : W) (t8 : List Ev) (a9 : Args) (w9 : W) (t9 : List Ev)
      (a10 : Args) (w10 : W) (t10 : List Ev) (t11 : List Ev),
      credentialsPrompt (stepStr 1 11) [] w = Out.ok a1 w1 t1 ∧
      lookupArg "credentials" a1 = some c ∧
      googleProjectIdPrompt (stepStr 2 11) [("credentials", c)] w1 = Out.ok a2 w2 t2 ∧
      googleProjectNamePrompt (stepStr 3 11) a2 w2 = Out.ok a3 w3 t3 ∧
      billingPrompt (stepStr 4 11) a3 w3 = Out.ok a4 w4 t4 ∧
      postgresPasswordPrompt (stepStr 5 11) a4 w4 = Out.ok a5 w5 t5 ∧
      djangoFilesystemPathPrompt (stepStr 6 11) a5 w5 = Out.ok a6 w6 t6 ∧
      djangoProjectNamePrompt (stepStr 7 11) a6 w6 = Out.ok a7 w7 t7 ∧
      djangoAppNamePrompt (stepStr 8 11) a7 w7 = Out.ok a8 w8 t8 ∧
      djangoSuperuserLoginPrompt (stepStr 9 11) a8 w8 = Out.ok a9 w9 t9 ∧
      djangoSuperuserPasswordPrompt (stepStr 10 11) a9 w9 = Out.ok a10 w10 t10 ∧
      djangoSuperuserEmailPrompt (stepStr 11 11) a10 w10 = Out.ok res wf t11 ∧
      t = t1 ++ (t2 ++ (t3 ++ (t4 ++ (t5 ++ (t6 ++ (t7 ++ (t8 ++ (t9 ++ (t10 ++ (t11 ++ [])))))))))) := by
  have h0 : Out.seq (credentialsPrompt (stepStr 1 (PROMPT_ORDER.length + 1)) [] w)
      (fun credArgs w1 =>
        match lookupArg "credentials" credArgs with
        | none => Out.crash []
        | some c => runPromptSeq (PROMPT_ORDER.enumFrom 2) (setArg "credentials" c []) w1)
      = Out.ok res wf t := h
  rw [Out.seq_eq_ok] at h0
  obtain ⟨a1, w1, t1, tr1, hc1, h2, ht1⟩ := h0
  cases hc : lookupArg "credentials" a1 with
  | none => rw [hc] at h2; exact absurd h2 (by simp)
  | some c =>
    rw [hc] at h2
    have h3 : runPromptSeq (PROMPT_ORDER.enumFrom 2) (setArg "credentials" c []) w1 =
        Out.ok res wf tr1 := h2
    have hEnum : PROMPT_ORDER.enumFrom 2 =
        [(2, "project_id"), (3, "project_name"), (4, "billing_account_name"),
         (5, "database_password"), (6, "django_directory_path"), (7, "django_project_name"),
         (8, "django_app_name"), (9, "django_superuser_login"),
         (10, "django_superuser_password"), (11, "django_superuser_email")] := rfl
    rw [hEnum] at h3
    simp only [runPromptSeq, Out.seq_eq_ok] at h3
    obtain ⟨a2, w2, t2, tr2, hp2, h3, htr2⟩ := h3
    obtain ⟨a3, w3, t3, tr3, hp3, h3, htr3⟩ := h3
    obtain ⟨a4, w4, t4, tr4, hp4, h3, htr4⟩ := h3
    obtain ⟨a5, w5, t5, tr5, hp5, h3, htr5⟩ := h3
    obtain ⟨a6, w6, t6, tr6, hp6, h3, htr6⟩ := h3
    obtain ⟨a7, w7, t7, tr7, hp7, h3, htr7⟩ := h3
    obtain ⟨a8, w8, t8, tr8, hp8, h3, htr8⟩ := h3
    obtain ⟨a9, w9, t9, tr9, hp9, h3, htr9⟩ := h3
    obtain ⟨a10, w10, t10, tr10, hp10, h3, htr10⟩ := h3
    obtain ⟨a11, w11, t11, tr11, hp11, h3, htr11⟩ := h3
    injection h3 with e1 e2 e3
    subst res; subst wf
    have hq2 : googleProjectIdPrompt (stepStr 2 11) [("credentials", c)] w1 =
        Out.ok a2 w2 t2 := hp2
    have hq3 : googleProjectNamePrompt (stepStr 3 11) a2 w2 = Out.ok a3 w3 t3 := hp3
    have hq4 : billingPrompt (stepStr 4 11) a3 w3 = Out.ok a4 w4 t4 := hp4
    have hq5 : postgresPasswordPrompt (stepStr 5 11) a4 w4 = Out.ok a5 w5 t5 := hp5
    have hq6 : djangoFilesystemPathPrompt (stepStr 6 11) a5 w5 = Out.ok a6 w6 t6 := hp6
    have hq7 : djangoProjectNamePrompt (stepStr 7 11) a6 w6 = Out.ok a7 w7 t7 := hp7
    have hq8 : djangoAppNamePrompt (stepStr 8 11) a7 w7 = Out.ok a8 w8 t8 := hp8
    have hq9 : djangoSuperuserLoginPrompt (stepStr 9 11) a8 w8 = Out.ok a9 w9 t9 := hp9
    have hq10 : djangoSuperuserPasswordPrompt (stepStr 10 11) a9 w9 = Out.ok a10 w10 t10 := hp10
    have hq11 : djangoSuperuserEmailPrompt (stepStr 11 11) a10 w10 = Out.ok a11 w11 t11 := hp11
    have o2 := googleProjectIdPrompt_outcome hq2
    have o3 := googleProjectNamePrompt_outcome hq3
    have o4 := billingPrompt_outcome hq4
    have o5 := postgresPasswordPrompt_outcome hq5
    have o6 := djangoFilesystemPathPrompt_outcome hq6
    have o7 := djangoProjectNamePrompt_outcome hq7
    have o8 := djangoAppNamePrompt_outcome hq8
    have o9 := djangoSuperuserLoginPrompt_outcome hq9
    have o10 := djangoSuperuserPasswordPrompt_outcome hq10
    have o11 := djangoSuperuserEmailPrompt_outcome hq11
    have sc1 : (lookupArg "credentials" ([("credentials", c)] : Args)).isSome := rfl
    have sc2 := promptOutcome_pres o2 (by decide) sc1
    have sc3 := promptOutcome_pres o3 (by decide) sc2
    have sc4 := promptOutcome_pres o4 (by decide) sc3
    have sc5 := promptOutcome_pres o5 (by decide) sc4
    have sc6 := promptOutcome_pres o6 (by decide) sc5
    have sc7 := promptOutcome_pres o7 (by decide) sc6
    have sc8 := promptOutcome_pres o8 (by decide) sc7
    have sc9 := promptOutcome_pres o9 (by decide) sc8
    have sc10 := promptOutcome_pres o10 (by decide) sc9
    have sc11 := promptOutcome_pres o11 (by decide) sc10
    have sp2 := promptOutcome_self o2
    have sp3 := promptOutcome_pres o3 (by decide) sp2
    have sp4 := promptOutcome_pres o4 (by decide) sp3
    have sp5 := promptOutcome_pres o5 (by decide) sp4
    have sp6 := promptOutcome_pres o6 (by decide) sp5
    have sp7 := promptOutcome_pres o7 (by decide) sp6
    have sp8 := promptOutcome_pres o8 (by decide) sp7
    have sp9 := promptOutcome_pres o9 (by decide) sp8
    have sp10 := promptOutcome_pres o10 (by decide) sp9
    have sp11 := promptOutcome_pres o11 (by decide) sp10
    have sn3 := promptOutcome_self o3
    have sn4 := promptOutcome_pres o4 (by decide) sn3
    have sn5 := promptOutcome_pres o5 (by decide) sn4
    have sn6 := promptOutcome_pres o6 (by decide) sn5
    have sn7 := promptOutcome_pres o7 (by decide) sn6
    have sn8 := promptOutcome_pres o8 (by decide) sn7
    have sn9 := promptOutcome_pres o9 (by decide) sn8
    have sn10 := promptOutcome_pres o10 (by decide) sn9
    have sn11 := promptOutcome_pres o11 (by decide) sn10
    have sb4 := promptOutcome_self o4
    have sb5 := promptOutcome_pres o5 (by decide) sb4
    have sb6 := promptOutcome_pres o6 (by decide) sb5
    have sb7 := promptOutcome_pres o7 (by decide) sb6
    have sb8 := promptOutcome_pres o8 (by decide) sb7
    have sb9 := promptOutcome_pres o9 (by decide) sb8
    have sb10 := promptOutcome_pres o10 (by decide) sb9
    have sb11 := promptOutcome_pres o11 (by decide) sb10
    have sd5 := promptOutcome_self o5
    have sd6 := promptOutcome_pres o6 (by decide) sd5
    have sd7 := promptOutcome_pres o7 (by decide) sd6
    have sd8 := promptOutcome_pres o8 (by decide) sd7
    have sd9 := promptOutcome_pres o9 (by decide) sd8
    have sd10 := promptOutcome_pres o10 (by decide) sd9
    have sd11 := promptOutcome_pres o11 (by decide) sd10
    have sf6 := promptOutcome_self o6
    have sf7 := promptOutcome_pres o7 (by decide) sf6
    have sf8 := promptOutcome_pres o8 (by decide) sf7
    have sf9 := promptOutcome_pres o9 (by decide) sf8
    have sf10 := promptOutcome_pres o10 (by decide) sf9
    have sf11 := promptOutcome_pres o11 (by decide) sf10
    have sg7 := promptOutcome_self o7
    have sg8 := promptOutcome_pres o8 (by decide) sg7
    have sg9 := promptOutcome_pres o9 (by decide) sg8
    have sg10 := promptOutcome_pres o10 (by decide) sg9
    have sg11 := promptOutcome_pres o11 (by decide) sg10
    have sh8 := promptOutcome_self o8
    have sh9 := promptOutcome_pres o9 (by decide) sh8
    have sh10 := promptOutcome_pres o10 (by decide) sh9
    have sh11 := promptOutcome_pres o11 (by decide) sh10
    have si9 := promptOutcome_self o9
    have si10 := promptOutcome_pres o10 (by decide) si9
    have si11 := promptOutcome_pres o11 (by decide) si10
    have sj10 := promptOutcome_self o10
    have sj11 := promptOutcome_pres o11 (by decide) sj10
    have sk11 := promptOutcome_self o11
    refine ⟨⟨sc11, ?_⟩, a1, w1, t1, c, a2, w2, t2, a3, w3, t3, a4, w4, t4, a5, w5, t5,
      a6, w6, t6, a7, w7, t7, a8, w8, t8, a9, w9, t9, a10, w10, t10, t11,
      hc1, hc, hq2, hq3, hq4, hq5, hq6, hq7, hq8, hq9, hq10, hq11, ?_⟩
    · intro k hk
      simp only [PROMPT_ORDER, List.mem_cons, List.not_mem_nil, or_false] at hk
      rcases hk with rfl | rfl | rfl | rfl | rfl | rfl | rfl | rfl | rfl | rfl
      · exact sp11
      · exact sn11
      · exact sb11
      · exact sd11
      · exact sf11
      · exact sg11
      · exact sh11
      · exact si11
      · exact sj11
      · exact sk11
    · subst ht1; subst htr2; subst htr3; subst htr4; subst htr5; subst htr6
      subst htr7; subst htr8; subst htr9; subst htr10; subst htr11
      rw [← e3]

/-- The answer mapping of a normal outcome. -/
def Out.argsOf : Out Args → Args
  | Out.ok a _ _ => a
  | Out.crash _ => []
  | Out.blocked _ => []

/-- The world of a normal outcome (with a fallback). -/
def Out.worldOf (d : W) : Out α → W
  | Out.ok _ w _ => w
  | Out.crash _ => d
  | Out.blocked _ => d

/-- The trace of an outcome. -/
def Out.traceOf : Out α → List Ev
  | Out.ok _ _ t => t
  | Out.crash t => t
  | Out.blocked t => t

/-- A base world for the concrete runs below. -/
def w0 : W :=
  { askInputs := [], passInputs := [], billingLists := [], activeAccount := none,
    billingOf := fun _ => { billingEnabled := false, billingAccountName := none },
    projectNameOf := fun _ => "", projectExists := fun _ => false,
    pathExists := fun _ => false, homeDir := "/home/user",
    randNat := 123456, newCreds := 1, defaultCreds := 2 }

/-- A world driving one full wizard session: blank answers pick every
default, one existing billing account chosen as option 1, matching valid
passwords, and an explicit project directory. -/
def wRun : W :=
  { w0 with
    askInputs := ["", "", "", "1", "/tmp/proj", "", "", "", ""],
    passInputs := ["passw", "passw", "pass2", "pass2"],
    billingLists := [[{ name := "ba1", displayName := "Acct" }]],
    activeAccount := some "user@x" }

theorem root_prompt_sequences_witness :
    (lookupArg "credentials" ((rootPrompt [] wRun).argsOf)).isSome ∧
    ∀ k ∈ PROMPT_ORDER, (lookupArg k ((rootPrompt [] wRun).argsOf)).isSome :=
  (root_prompt_sequences_and_populates wRun ((rootPrompt [] wRun).argsOf)
    ((rootPrompt [] wRun).worldOf wRun) ((rootPrompt [] wRun).traceOf) (by rfl)).1

/-- C2: every parameter prompter, run on any mapping with any input
streams, returns (on normal return) a mapping that leaves every key other
than its own `PARAMETER` untouched, removes nothing, and is either the
unchanged copy of the input or the copy with exactly its own key written -
the value-copy-then-extend contract of the answer mapping. -/
theorem prompter_frame :
    (∀ step args w args1 w1 t, credentialsPrompt step args w = Out.ok args1 w1 t →
      (∀ k, k ≠ "credentials" → lookupArg k args1 = lookupArg k args) ∧
      (args1 = args ∨ ∃ v, args1 = setArg "credentials" v args)) ∧
    (∀ p ∈ PROMPT_ORDER, ∀ step args w args1 w1 t,
      paramPrompter p step args w = Out.ok args1 w1 t →
      (∀ k, k ≠ p → lookupArg k args1 = lookupArg k args) ∧
      (args1 = args ∨ ∃ v, args1 = setArg p v args)) := by
  constructor
  · intro step args w args1 w1 t h
    have o := credentialsPrompt_outcome h
    exact ⟨fun k hk => promptOutcome_lookup_ne o hk, Or.imp (fun x => x.1) id o⟩
  · intro p hp step args w args1 w1 t h
    simp only [PROMPT_ORDER, List.mem_cons, List.not_mem_nil, or_false] at hp
    rcases hp with rfl | rfl | rfl | rfl | rfl | rfl | rfl | rfl | rfl | rfl
    · have o := googleProjectIdPrompt_outcome
        (show googleProjectIdPrompt step args w = Out.ok args1 w1 t from h)
      exact ⟨fun k hk => promptOutcome_lookup_ne o hk, Or.imp (fun x => x.1) id o⟩
    · have o := googleProjectNamePrompt_outcome
        (show googleProjectNamePrompt step args w = Out.ok args1 w1 t from h)
      exact ⟨fun k hk => promptOutcome_lookup_ne o hk, Or.imp (fun x => x.1) id o⟩
    · have o := billingPrompt_outcome
        (show billingPrompt step args w = Out.ok args1 w1 t from h)
      exact ⟨fun k hk => promptOutcome_lookup_ne o hk, Or.imp (fun x => x.1) id o⟩
    · have o := postgresPasswordPrompt_outcome
        (show postgresPasswordPrompt step args w = Out.ok args1 w1 t from h)
      exact ⟨fun k hk => promptOutcome_lookup_ne o hk, Or.imp (fun x => x.1) id o⟩
    · have o := djangoFilesystemPathPrompt_outcome
        (show djangoFilesystemPathPrompt step args w = Out.ok args1 w1 t from h)
      exact ⟨fun k hk => promptOutcome_lookup_ne o hk, Or.imp (fun x => x.1) id o⟩
    · have o := djangoProjectNamePrompt_outcome
        (show djangoProjectNamePrompt step args w = Out.ok args1 w1 t from h)
      exact ⟨fun k hk => promptOutcome_lookup_ne o hk, Or.imp (fun x => x.1) id o⟩
    · have o := djangoAppNamePrompt_outcome
        (show djangoAppNamePrompt step args w = Out.ok args1 w1 t from h)
      exact ⟨fun k hk => promptOutcome_lookup_ne o hk, Or.imp (fun x => x.1) id o⟩
    · have o := djangoSuperuserLoginPrompt_outcome
        (show djangoSuperuserLoginPrompt step args w = Out.ok args1 w1 t from h)
      exact ⟨fun k hk => promptOutcome_lookup_ne o hk, Or.imp (fun x => x.1) id o⟩
    · have o := djangoSuperuserPasswordPrompt_outcome
        (show djangoSuperuserPasswordPrompt step args w = Out.ok args1 w1 t from h)
      exact ⟨fun k hk => promptOutcome_lookup_ne o hk, Or.imp (fun x => x.1) id o⟩
    · have o := djangoSuperuserEmailPrompt_outcome
        (show djangoSuperuserEmailPrompt step args w = Out.ok args1 w1 t from h)
      exact ⟨fun k hk => promptOutcome_lookup_ne o hk, Or.imp (fun x => x.1) id o⟩

/-- A flag-supplied directory path for the C2 witness instantiation. -/
def c2args : Args := [("x", Value.str "keepme"), ("django_directory_path", Value.str "d")]

theorem prompter_frame_witness :
    (∀ k, k ≠ "django_directory_path" → lookupArg k c2args = lookupArg k c2args) ∧
    (c2args = c2args ∨ ∃ v, c2args = setArg "django_directory_path" v c2args) :=
  prompter_frame.2 "django_directory_path" (by simp [PROMPT_ORDER]) "[s]" c2args w0 c2args w0
    [Ev.tell "[s] django_directory_path: d"] (by rfl)

theorem guardedPrompt_passed_valid {param : String} {validate : Args → W → Value → VRes}
    {interactive : String → Args → W → Out Args} {step : String} {args : Args} {w : W}
    {v : Value} (hv : lookupArg param args = some v) (hok : validate args w v = VRes.ok) :
    guardedPrompt param validate interactive step args w =
      Out.ok args w [Ev.tell (step ++ " " ++ param ++ ": " ++ v.render)] := by
  rw [guardedPrompt, hv]
  simp only [isValidPassedArg, hok, Out.seq, Out.prepend, if_pos, List.append_nil]

theorem guardedPrompt_passed_invalid {param : String} {validate : Args → W → Value → VRes}
    {interactive : String → Args → W → Out Args} {step : String} {args : Args} {w : W}
    {v : Value} {e : String} (hv : lookupArg param args = some v)
    (hbad : validate args w v = VRes.invalid e) :
    guardedPrompt param validate interactive step args w =
      (interactive step args w).prepend [Ev.err e] := by
  rw [guardedPrompt, hv]
  simp only [isValidPassedArg, hbad, Out.seq]
  cases hi : interactive step args w <;>
    simp [Out.prepend, hi]

/-- The prompter owning a key, including the credentials prompter that the
root sequencer runs outside the `_setup_prompts` dictionary. -/
def prompterFor : String → String → Args → W → Out Args
  | "credentials" => credentialsPrompt
  | p => paramPrompter p

/-- The `_validate` each prompter's `_is_valid_passed_arg` call applies to
a flag-supplied value (for the `project_id` dispatch, the one of the
subclass `GoogleProjectId.prompt` selects). -/
def passedValidatorOf : String → Args → W → Value → VRes
  | "project_id", args, w =>
    if optValueTruthy (lookupArg "use_existing_project" args) then
      strValidate (existingProjectIdValidate w)
    else strValidate projectIdValidate
  | "project_name", args, w =>
    strValidate (projectNameValidate (lookupArg "project_id" args)
      (lookupArg "project_creation_mode" args) w)
  | "database_password", _, _ => strValidate passwordValidate
  | "django_superuser_password", _, _ => strValidate passwordValidate
  | "django_project_name", _, _ => strValidate djangoProjectNameValidate
  | "django_app_name", _, _ => strValidate djangoProjectNameValidate
  | "django_superuser_login", _, _ => strValidate superuserLoginValidate
  | "django_superuser_email", _, _ => strValidate emailValidate
  | _, _, _ => trivialValidate

/-- The interactive remainder each prompter falls through to when the
flag-supplied value fails validation. -/
def interactiveFor : String → String → Args → W → Out Args
  | "credentials" => credentialsInteractive
  | "project_id" => fun step args w =>
      if optValueTruthy (lookupArg "use_existing_project" args) then
        googleExistingProjectIdInteractive step args w
      else googleNewProjectIdInteractive step args w
  | "project_name" => googleProjectNameInteractive
  | "billing_account_name" => billingInteractive
  | "database_password" => postgresPasswordInteractive
  | "django_directory_path" => djangoFilesystemPathInteractive
  | "django_project_name" =>
      stringTemplateInteractive "django_project_name" "Django project name" "mysite"
        djangoProjectNameValidate
  | "django_app_name" =>
      stringTemplateInteractive "django_app_name" "Django app name" "home"
        djangoProjectNameValidate
  | "django_superuser_login" =>
      stringTemplateInteractive "django_superuser_login" "Django superuser login name" "admin"
        superuserLoginValidate
  | "django_superuser_password" => djangoSuperuserPasswordInteractive
  | "django_superuser_email" =>
      stringTemplateInteractive "django_superuser_email" "Django superuser email"
        "test@example.com" emailValidate
  | _ => fun _ _ _ => Out.crash []

/-- C3: for every parameter prompter whose key is already present in the
mapping with a value its `_validate` accepts, `prompt` returns the copied
mapping unchanged with exactly one confirmation `tell` (step, parameter
name, value) and no `ask`/`getpass`; when the pre-supplied value fails
validation, the error is reported and the prompter runs exactly its
interactive collection path after that single error line. -/
theorem passed_arg_short_circuit :
    (∀ p ∈ ("credentials" :: PROMPT_ORDER), ∀ step args w v,
      lookupArg p args = some v → passedValidatorOf p args w v = VRes.ok →
      prompterFor p step args w =
        Out.ok args w [Ev.tell (step ++ " " ++ p ++ ": " ++ v.render)]) ∧
    (∀ p ∈ ("credentials" :: PROMPT_ORDER), ∀ step args w v e,
      lookupArg p args = some v → passedValidatorOf p args w v = VRes.invalid e →
      prompterFor p step args w = (interactiveFor p step args w).prepend [Ev.err e]) := by
  constructor
  · intro p hp step args w v hv hok
    simp only [List.mem_cons, PROMPT_ORDER, List.not_mem_nil, or_false] at hp
    rcases hp with rfl | rfl | rfl | rfl | rfl | rfl | rfl | rfl | rfl | rfl | rfl
    · exact guardedPrompt_passed_valid hv hok
    · show googleProjectIdPrompt step args w = _
      rw [googleProjectIdPrompt]
      simp only [passedValidatorOf] at hok
      by_cases hu : optValueTruthy (lookupArg "use_existing_project" args) = true
      · rw [if_pos hu]; rw [if_pos hu] at hok
        exact guardedPrompt_passed_valid hv hok
      · rw [if_neg hu]; rw [if_neg hu] at hok
        exact guardedPrompt_passed_valid hv hok
    · exact guardedPrompt_passed_valid hv hok
    · exact guardedPrompt_passed_valid hv hok
    · exact guardedPrompt_passed_valid hv hok
    · exact guardedPrompt_passed_valid hv hok
    · exact guardedPrompt_passed_valid hv hok
    · exact guardedPrompt_passed_valid hv hok
    · exact guardedPrompt_passed_valid hv hok
    · exact guardedPrompt_passed_valid hv hok
    · exact guardedPrompt_passed_valid hv hok
  · intro p hp step args w v e hv hbad
    simp only [List.mem_cons, PROMPT_ORDER, List.not_mem_nil, or_false] at hp
    rcases hp with rfl | rfl | rfl | rfl | rfl | rfl | rfl | rfl | rfl | rfl | rfl
    · exact absurd hbad (by simp [passedValidatorOf, trivialValidate])
    · show googleProjectIdPrompt step args w = _
      rw [googleProjectIdPrompt]
      simp only [passedValidatorOf] at hbad
      show _ = (if optValueTruthy (lookupArg "use_existing_project" args) then
          googleExistingProjectIdInteractive step args w
        else googleNewProjectIdInteractive step args w).prepend [Ev.err e]
      by_cases hu : optValueTruthy (lookupArg "use_existing_project" args) = true
      · rw [if_pos hu]; rw [if_pos hu] at hbad; rw [if_pos hu]
        exact guardedPrompt_passed_invalid hv hbad
      · rw [if_neg hu]; rw [if_neg hu] at hbad; rw [if_neg hu]
        exact guardedPrompt_passed_invalid hv hbad
    · exact guardedPrompt_passed_invalid hv hbad
    · exact absurd hbad (by simp [passedValidatorOf, trivialValidate])
    · exact guardedPrompt_passed_invalid hv hbad
    · exact absurd hbad (by simp [passedValidatorOf, trivialValidate])
    · exact guardedPrompt_passed_invalid hv hbad
    · exact guardedPrompt_passed_invalid hv hbad
    · exact guardedPrompt_passed_invalid hv hbad
    · exact guardedPrompt_passed_invalid hv hbad
    · exact guardedPrompt_passed_invalid hv hbad

/-- The mapping of the C3 witness instantiation: a pre-supplied valid
database password. -/
def c3args : Args := [("database_password", Value.str "pw123")]

theorem passed_arg_short_circuit_witness :
    prompterFor "database_password" "[s]" c3args w0 =
      Out.ok c3args w0 [Ev.tell "[s] database_password: pw123"] :=
  passed_arg_short_circuit.1 "database_password" (by simp [PROMPT_ORDER]) "[s]" c3args w0
    (Value.str "pw123") (by rfl) (by rfl)

/-- C4: `_password_validate` accepts a string exactly when its length is
at least 5 and its character set is *not* a superset of the allowed set
(ASCII letters, digits and punctuation) - the source's literal, inverted
condition; every other string raises a `ValueError`. -/
theorem password_validate_iff (s : String) :
    passwordValidate s = Except.ok () ↔
      (5 ≤ s.length ∧ ¬ ∀ c ∈ allowedPasswordChars, c ∈ s.data) := by
  rw [passwordValidate]
  by_cases hlen : s.length < 5
  · rw [if_pos hlen]
    constructor
    · intro h; exact Except.noConfusion h
    · rintro ⟨h5, _⟩; omega
  · rw [if_neg hlen]
    by_cases hsup : allowedPasswordChars.all (fun c => s.data.contains c) = true
    · rw [if_pos hsup]
      constructor
      · intro h; exact Except.noConfusion h
      · rintro ⟨_, hno⟩
        refine absurd (fun c hc => ?_) hno
        have h1 := List.all_eq_true.mp hsup c hc
        simpa using h1
    · rw [if_neg hsup]
      refine ⟨fun _ => ⟨by omega, fun hall => hsup ?_⟩, fun _ => rfl⟩
      rw [List.all_eq_true]
      intro c hc
      simpa using hall c hc

/-- A multiple-choice question template with one placeholder. -/
def mcQuestion : String := "Choose:\n\x7b\x7d\nYour choice: "

/-- C5 (code defect witnessed): at a multiple-choice prompt over the two
options `["a", "b"]`, the answer `"4"` is *accepted* without any error
event, although `4 > 2 + 1`: `_multiple_choice_prompt` rebinds `options`
to the newline-joined display string, so the validator receives
`len("1. a\n2. b") = 9` instead of the option count 2. -/
theorem multiple_choice_length_bug :
    multipleChoicePrompt mcQuestion ["a", "b"] (some "") { w0 with askInputs := ["4"] } =
      Out.ok "4" w0 [Ev.ask (pyFormat1 mcQuestion "1. a\n2. b")] ∧
    ¬ ((pyToNat? "4").getD 0 ≤ 2 + 1) := by
  exact ⟨rfl, by decide⟩

/-- C7 (code defect witnessed): for a 27-character project name, the draw
1000000 - inside `random.randint(100000, 1000000)`'s inclusive range -
produces a generated default project id of length 31 with a 7-digit
suffix, violating the claimed 6-digit suffix and 30-character bound that
the source's own `[0:30 - 6 - 1]` truncation was written for. -/
theorem default_project_id_bug :
    (generateDefaultProjectId (some (String.mk (List.replicate 27 'a'))) 1000000).length = 31 ∧
    (toString (1000000 : Nat)).length = 7 := by
  exact ⟨rfl, rfl⟩

/-- A world whose billing service reports billing enabled with account
name `"y"` for every project. -/
def c6w : W :=
  { w0 with billingOf := fun _ => { billingEnabled := true, billingAccountName := some "y" } }

/-- A mapping with `MUST_EXIST` mode, a project id, and a pre-supplied
`billing_account_name` of `"x"`. -/
def c6args : Args :=
  [("project_id", Value.str "p"),
   ("project_creation_mode", Value.mode ProjectCreationMode.MUST_EXIST),
   ("billing_account_name", Value.str "x")]

/-- C6 counterexample: with `project_creation_mode = MUST_EXIST` and the
billing service reporting `billingEnabled` with account `"y"`, a
pre-supplied `billing_account_name` short-circuits `BillingPrompt.prompt`
through the (trivial) flag validation, so the returned mapping keeps `"x"`
and is *not* set to the reported `billingAccountName` - the claim as
stated fails on this input. -/
theorem billing_short_circuit_counterexample :
    (c6w.billingOf "p").billingEnabled = true ∧
    (c6w.billingOf "p").billingAccountName = some "y" ∧
    lookupArg "project_creation_mode" c6args =
      some (Value.mode ProjectCreationMode.MUST_EXIST) ∧
    billingPrompt "[s]" c6args c6w = Out.ok c6args c6w [Ev.tell "[s] billing_account_name: x"] ∧
    lookupArg "billing_account_name" c6args ≠ some (Value.str "y") := by
  exact ⟨rfl, rfl, rfl, rfl, by decide⟩

/-- C6 amended: when `billing_account_name` is *not* already supplied,
`project_creation_mode` is `MUST_EXIST`, a `project_id` is recorded, and
the billing service reports `billingEnabled` together with a
`billingAccountName` for it, `BillingPrompt.prompt` sets
`billing_account_name` to the reported name and returns after the single
short-circuit message - no account-choice menu, no browser. -/
theorem billing_short_circuit_amended (step : String) (args : Args) (w : W) (pid b : String)
    (hno : lookupArg "billing_account_name" args = none)
    (hmode : lookupArg "project_creation_mode" args =
      some (Value.mode ProjectCreationMode.MUST_EXIST))
    (hpid : lookupArg "project_id" args = some (Value.str pid))
    (hb : w.billingOf pid = { billingEnabled := true, billingAccountName := some b }) :
    billingPrompt step args w =
      Out.ok (setArg "billing_account_name" (Value.str b) args) w
        [Ev.tell (step ++ " Billing is already enabled on this project.")] := by
  have h1 : billingPrompt step args w = billingInteractive step args w := by
    rw [billingPrompt, guardedPrompt, hno]
    cases hi : billingInteractive step args w <;>
      simp [isValidPassedArg, Out.seq, Out.prepend, hi]
  rw [h1, billingInteractive, hmode]
  simp [doesProjectExist, hasExistingBillingAccount, hpid, hb, Value.asStr,
    Out.seq, Out.prepend]

/-- The mapping of the C6 amended-claim witness instantiation. -/
def c6amArgs : Args :=
  [("project_id", Value.str "p"),
   ("project_creation_mode", Value.mode ProjectCreationMode.MUST_EXIST)]

theorem billing_short_circuit_amended_witness :
    billingPrompt "[s]" c6amArgs c6w =
      Out.ok (setArg "billing_account_name" (Value.str "y") c6amArgs) c6w
        [Ev.tell "[s] Billing is already enabled on this project."] :=
  billing_short_circuit_amended "[s]" c6amArgs c6w "p" "y" rfl rfl rfl rfl

theorem processFlag_exited_inv {name : String} {validate : String → Except String Unit}
    {value : Option String} {s : UpdateStep} {e : String} {n : Nat}
    (h : processFlag name validate value s = UpdateStep.exited e n) :
    s = UpdateStep.exited e n ∨ n = 1 := by
  cases s with
  | exited e2 n2 => exact Or.inl h
  | proceed acc rem =>
    cases value with
    | none => exact absurd h (by simp [processFlag])
    | some v =>
      cases hv : validate v with
      | ok u => rw [processFlag, hv] at h; exact absurd h (by simp)
      | error e2 =>
        rw [processFlag, hv] at h
        injection h with h1 h2
        exact Or.inr h2.symm

theorem processFlag_proceed_inv {name : String} {validate : String → Except String Unit}
    {value : Option String} {s : UpdateStep} {acc : List (String × String)}
    {rem : List String}
    (h : processFlag name validate value s = UpdateStep.proceed acc rem) :
    (∃ acc0 rem0, s = UpdateStep.proceed acc0 rem0) ∧
    (∀ v, value = some v → ∃ u, validate v = Except.ok u) := by
  cases s with
  | exited e2 n2 => exact absurd h (by simp [processFlag])
  | proceed acc0 rem0 =>
    refine ⟨⟨acc0, rem0, rfl⟩, fun v hv => ?_⟩
    subst hv
    cases hval : validate v with
    | ok u => exact ⟨u, rfl⟩
    | error e2 => rw [processFlag, hval] at h; exact absurd h (by simp)

theorem updateFlagPhase_status {V : UpdateValidators} {f : UpdateArgs} {e : String} {n : Nat}
    (h : updateFlagPhase V f = UpdateStep.exited e n) : n = 1 := by
  rw [updateFlagPhase] at h
  rcases processFlag_exited_inv h with h2 | h2
  · rcases processFlag_exited_inv h2 with h3 | h3
    · rcases processFlag_exited_inv h3 with h4 | h4
      · exact absurd h4 (by simp)
      · exact h4
    · exact h3
  · exact h2

theorem updateFlagPhase_no_fail {V : UpdateValidators} {f : UpdateArgs}
    {acc : List (String × String)} {rem : List String}
    (h : updateFlagPhase V f = UpdateStep.proceed acc rem) : ¬ flagFails V f := by
  rw [updateFlagPhase] at h
  obtain ⟨⟨acc1, rem1, h1⟩, hval3⟩ := processFlag_proceed_inv h
  obtain ⟨⟨acc2, rem2, h2⟩, hval2⟩ := processFlag_proceed_inv h1
  obtain ⟨_, hval1⟩ := processFlag_proceed_inv h2
  rintro (⟨v, e, hv, he⟩ | ⟨v, e, hv, he⟩ | ⟨v, e, hv, he⟩)
  · obtain ⟨u, hu⟩ := hval1 v hv
    rw [hu] at he; exact Except.noConfusion he
  · obtain ⟨u, hu⟩ := hval2 v hv
    rw [hu] at he; exact Except.noConfusion he
  · obtain ⟨u, hu⟩ := hval3 v hv
    rw [hu] at he; exact Except.noConfusion he

theorem askLoop_world (q : String) (validate : String → Except String Unit)
    (default : Option String) (w : W) (x : List String) (l : List String) :
    askLoop q validate default { w with askInputs := x } l =
      askLoop q validate default w l := by
  induction l with
  | nil => rfl
  | cons a rest ih =>
    rw [askLoop, askLoop]
    cases hv : validate (applyDefault default a) with
    | ok u => rfl
    | error e => rw [ih]

/-- C8: in the update entry point, a flag-supplied value failing its
validator makes the flow print that error (to the error stream) and exit
with status 1 - for *every* choice of the three validators and flag
values; whereas a validation failure inside the interactive `_ask_prompt`
loop never terminates anything: the loop emits the error event and
continues as the same prompt on the remaining input. -/
theorem update_flag_exit :
    (∀ (V : UpdateValidators) (f : UpdateArgs), flagFails V f →
      ∃ e, updateFlagPhase V f = UpdateStep.exited e 1) ∧
    (∀ (q : String) (validate : String → Except String Unit) (default : Option String)
        (w : W) (a : String) (rest : List String) (e : String),
      w.askInputs = a :: rest → validate (applyDefault default a) = Except.error e →
      askPrompt q validate default w =
        (askPrompt q validate default { w with askInputs := rest }).prepend
          [Ev.ask q, Ev.err e]) := by
  constructor
  · intro V f hf
    cases hres : updateFlagPhase V f with
    | exited e n =>
      have hn := updateFlagPhase_status hres
      subst hn
      exact ⟨e, rfl⟩
    | proceed acc rem => exact absurd hf (updateFlagPhase_no_fail hres)
  · intro q validate default w a rest e hin he
    rw [askPrompt, hin, askLoop, he]
    have hw := askLoop_world q validate default w rest rest
    show Out.prepend [Ev.ask q, Ev.err e] (askLoop q validate default w rest) =
      Out.prepend [Ev.ask q, Ev.err e]
        (askLoop q validate default { w with askInputs := rest } rest)
    rw [hw]

/-- Validators and flags of the C8 witness instantiation: the database
password flag is present and rejected. -/
def c8V : UpdateValidators :=
  { credentials := fun _ => Except.ok (),
    database_password := fun _ => Except.error "bad password",
    django_directory_path := fun _ => Except.ok () }

/-- The flag values of the C8 witness instantiation. -/
def c8f : UpdateArgs :=
  { credentials := none, database_password := some "x", django_directory_path := none }

theorem update_flag_exit_witness :
    ∃ e, updateFlagPhase c8V c8f = UpdateStep.exited e 1 :=
  update_flag_exit.1 c8V c8f (Or.inr (Or.inl ⟨"x", "bad password", rfl, rfl⟩))

/-- C9: in `DjangoFilesystemPath.prompt` (no flag-supplied path), when the
entered directory exists, the run consists of exactly one directory
question and exactly one overwrite confirmation, after which the loop
exits whatever the confirmation answer `a2` was - declining does not
re-prompt - and the originally entered directory is recorded. -/
theorem fs_path_confirm_once (step : String) (args : Args) (w : W) (a1 a2 : String)
    (rest : List String)
    (hkey : lookupArg "django_directory_path" args = none)
    (hin : w.askInputs = a1 :: a2 :: rest)
    (hex : w.pathExists (applyDefault (some (fsDefaultDir args w)) a1) = true) :
    djangoFilesystemPathPrompt step args w =
      Out.ok (setArg "django_directory_path"
          (Value.str (applyDefault (some (fsDefaultDir args w)) a1)) args)
        { w with askInputs := rest }
        [Ev.ask (fsDirMsg step args w),
         Ev.ask (fsReplaceMsg (applyDefault (some (fsDefaultDir args w)) a1))] := by
  have h1 : djangoFilesystemPathPrompt step args w =
      djangoFilesystemPathInteractive step args w := by
    rw [djangoFilesystemPathPrompt, guardedPrompt, hkey]
    cases hi : djangoFilesystemPathInteractive step args w <;>
      simp [isValidPassedArg, Out.seq, Out.prepend, hi]
  rw [h1, djangoFilesystemPathInteractive, askPrompt, hin, askLoop]
  simp only [Out.seq, Out.prepend]
  rw [hex]
  simp only [if_true, askPrompt, askLoop, Out.seq, Out.prepend]
  rfl

/-- The world of the C9 witness instantiation: the entered directory
exists, and the confirmation is declined with `"n"`. -/
def c9w : W :=
  { w0 with askInputs := ["/d", "n"], pathExists := fun s => s == "/d" }

theorem fs_path_confirm_once_witness :
    djangoFilesystemPathPrompt "[s]" [] c9w =
      Out.ok [("django_directory_path", Value.str "/d")] { c9w with askInputs := [] }
        [Ev.ask (fsDirMsg "[s]" [] c9w), Ev.ask (fsReplaceMsg "/d")] :=
  fs_path_confirm_once "[s]" [] c9w "/d" "n" [] rfl rfl rfl

theorem Out.prepend_eq_ok {α : Type} {t0 : List Ev} {o : Out α} {a : α} {wf : W}
    {t : List Ev} :
    o.prepend t0 = Out.ok a wf t ↔ ∃ t1, o = Out.ok a wf t1 ∧ t = t0 ++ t1 := by
  cases o with
  | ok a2 w2 t2 =>
    constructor
    · intro h
      injection h with e1 e2 e3
      exact ⟨t2, by rw [e1, e2], e3.symm⟩
    · rintro ⟨t1, h1, h2⟩
      injection h1 with e1 e2 e3
      rw [Out.prepend, e1, e2, e3, h2]
  | crash t2 =>
    constructor
    · intro h; exact absurd h (by simp [Out.prepend])
    · rintro ⟨t1, h1, _⟩; exact absurd h1 (by simp)
  | blocked t2 =>
    constructor
    · intro h; exact absurd h (by simp [Out.prepend])
    · rintro ⟨t1, h1, _⟩; exact absurd h1 (by simp)

theorem billingPollLoop_ok_inv (en : List String) (el : Nat) (w : W) :
    ∀ (ls : List (List BAccount)) (x : String) (wf : W) (t : List Ev),
      billingPollLoop en el w ls = Out.ok x wf t →
      ∃ i bs, ls.get? i = some bs ∧
        (∀ j, j < i → ∃ cs, ls.get? j = some cs ∧ cs.length = el) ∧
        bs.length ≠ el ∧ x ∈ bs.map BAccount.name ∧ ¬ en.contains x = true := by
  intro ls
  induction ls with
  | nil => intro x wf t h; exact absurd h (by simp [billingPollLoop])
  | cons bs rest ih =>
    intro x wf t h
    rw [billingPollLoop] at h
    split at h
    · next hlen =>
      rcases hfil : (bs.map BAccount.name).filter (fun n => decide (¬ en.contains n = true))
        with _ | ⟨d, tail⟩
      · rw [hfil] at h; exact absurd h (by simp)
      · rw [hfil] at h
        injection h with e1 e2 e3
        subst e1
        have hd : d ∈ (bs.map BAccount.name).filter (fun n => decide (¬ en.contains n = true)) := by
          rw [hfil]; exact List.mem_cons_self d tail
        refine ⟨0, bs, rfl, fun j hj => absurd hj (by omega), fun he => hlen he.symm,
          List.mem_of_mem_filter hd, ?_⟩
        have := List.of_mem_filter hd
        simpa using this
    · next hlen =>
      rw [Out.prepend_eq_ok] at h
      obtain ⟨t1, h1, _⟩ := h
      obtain ⟨i, bs2, hget, hpre, hln, hmem, hnc⟩ := ih x wf t1 h1
      refine ⟨i + 1, bs2, by simpa using hget, fun j hj => ?_, hln, hmem, hnc⟩
      cases j with
      | zero => exact ⟨bs, rfl, by omega⟩
      | succ j2 => simpa using hpre j2 (by omega)

theorem billingPollLoop_crash (en : List String) (el : Nat) (w : W) :
    ∀ (i : Nat) (ls : List (List BAccount)) (bs : List BAccount),
      ls.get? i = some bs →
      (∀ j, j < i → ∃ cs, ls.get? j = some cs ∧ cs.length = el) →
      bs.length ≠ el →
      (∀ n ∈ bs.map BAccount.name, en.contains n = true) →
      ∃ t, billingPollLoop en el w ls = Out.crash t := by
  intro i
  induction i with
  | zero =>
    intro ls bs hget hpre hlen hall
    cases ls with
    | nil => exact absurd hget (by simp)
    | cons bs0 rest =>
      have hbs : bs0 = bs := by simpa using hget
      subst hbs
      have hfil : (bs0.map BAccount.name).filter (fun n => decide (¬ en.contains n = true)) = [] := by
        rw [List.filter_eq_nil_iff]
        intro n hn
        have h2 := hall n hn
        simp at h2 ⊢
        exact h2
      refine ⟨[], ?_⟩
      rw [billingPollLoop, if_pos (fun he => hlen he.symm), hfil]
  | succ i2 ih =>
    intro ls bs hget hpre hlen hall
    cases ls with
    | nil => exact absurd hget (by simp)
    | cons cs rest =>
      obtain ⟨cs0, hcs0, hcslen⟩ := hpre 0 (by omega)
      have hcs : cs = cs0 := by simpa using hcs0
      subst hcs
      obtain ⟨t, ht⟩ := ih rest bs (by simpa using hget)
        (fun j hj => by simpa using hpre (j + 1) (by omega)) hlen hall
      refine ⟨Ev.sleep :: t, ?_⟩
      rw [billingPollLoop, if_neg (by omega), ht]
      rfl

/-- C10: `_get_new_billing_account` stops polling exactly at the first
listing whose length differs from the initial list's length.  On normal
return the returned name belongs to that differing poll and not to the
initial names - a genuinely new account.  But when the first
length-differing poll contains no name outside the initial set (e.g. an
account was removed), the unguarded `diff[0]` raises `IndexError` (the run
crashes) instead of continuing to poll. -/
theorem billing_poll_characterization :
    (∀ (existing : List BAccount) (w : W) (x : String) (wf : W) (t : List Ev),
      getNewBillingAccount existing w = Out.ok x wf t →
      ∃ i bs, w.billingLists.get? i = some bs ∧
        (∀ j, j < i → ∃ cs, w.billingLists.get? j = some cs ∧ cs.length = existing.length) ∧
        bs.length ≠ existing.length ∧
        x ∈ bs.map BAccount.name ∧ x ∉ existing.map BAccount.name) ∧
    (∀ (existing : List BAccount) (w : W) (i : Nat) (bs : List BAccount),
      w.billingLists.get? i = some bs →
      (∀ j, j < i → ∃ cs, w.billingLists.get? j = some cs ∧ cs.length = existing.length) →
      bs.length ≠ existing.length →
      (∀ n ∈ bs.map BAccount.name, n ∈ existing.map BAccount.name) →
      ∃ t, getNewBillingAccount existing w = Out.crash t) := by
  constructor
  · intro existing w x wf t h
    rw [getNewBillingAccount, Out.prepend_eq_ok] at h
    obtain ⟨t1, h1, _⟩ := h
    obtain ⟨i, bs, hget, hpre, hlen, hmem, hnc⟩ :=
      billingPollLoop_ok_inv (existing.map BAccount.name) existing.length w
        w.billingLists x wf t1 h1
    refine ⟨i, bs, hget, hpre, hlen, hmem, fun hx => hnc ?_⟩
    simpa using hx
  · intro existing w i bs hget hpre hlen hall
    obtain ⟨t, ht⟩ := billingPollLoop_crash (existing.map BAccount.name) existing.length w
      i w.billingLists bs hget hpre hlen
      (fun n hn => by simpa using hall n hn)
    exact ⟨[Ev.browse "https://console.cloud.google.com/billing/create",
        Ev.tell "Waiting for billing account to be created."] ++ t,
      by rw [getNewBillingAccount, ht]; rfl⟩

/-- The world of the C10 witness instantiation: the first poll matches the
initial length, the second has one more account. -/
def c10w : W :=
  { w0 with billingLists :=
      [[{ name := "a", displayName := "A" }],
       [{ name := "a", displayName := "A" }, { name := "b", displayName := "B" }]] }

theorem billing_poll_witness :
    ∃ i bs, c10w.billingLists.get? i = some bs ∧
      (∀ j, j < i → ∃ cs, c10w.billingLists.get? j = some cs ∧
        cs.length = [({ name := "a", displayName := "A" } : BAccount)].length) ∧
      bs.length ≠ [({ name := "a", displayName := "A" } : BAccount)].length ∧
      "b" ∈ bs.map BAccount.name ∧
      "b" ∉ [({ name := "a", displayName := "A" } : BAccount)].map BAccount.name :=
  billing_poll_characterization.1 [{ name := "a", displayName := "A" }] c10w "b"
    { c10w with billingLists := [] }
    [Ev.browse "https://console.cloud.google.com/billing/create",
     Ev.tell "Waiting for billing account to be created.", Ev.sleep] (by rfl)
